import Mathlib

/-!
# cairomm `surface.cc`: a shallow embedding

The file `cairomm/surface.cc` is a binding layer: every function is a short
sequence of calls into the native cairo library, followed (usually) by a status
check that may throw.  The embedding therefore has three ingredients.

* `World`: the explicit state the wrapper code can observe or change, namely the
  log of native calls issued so far, the native reference counts, the keyed
  user-data slots of every handle, the C++ heap of slot objects, the log of
  `delete` executions and the log of slot invocations.
* `Native`: the answers of the native library for calls whose result
  the binding cannot know (status codes, freshly created handles, sizes).  The
  answers may depend on the whole history of calls, so the theorems quantify over
  every possible native library.
* `M`: computations over `World` that return, throw a status, or run into
  C++ undefined behaviour (use of a slot object that is not alive).
-/

namespace Cairo

/-! ## Values crossing the C boundary -/

/-- A machine address; `0` is the null pointer. -/
abbrev Ptr := Nat

/-- The type `cairo_status_t`; cairomm declares `ErrorStatus` as the same enum. -/
abbrev ErrorStatus := Int

/-- The enumerator `CAIRO_STATUS_SUCCESS` of the native header `cairo.h`. -/
def CAIRO_STATUS_SUCCESS : ErrorStatus := 0

/-- The enumerator `CAIRO_STATUS_READ_ERROR` of the native header `cairo.h`. -/
def CAIRO_STATUS_READ_ERROR : ErrorStatus := 10

/-- The enumerator `CAIRO_STATUS_WRITE_ERROR` of the native header `cairo.h`. -/
def CAIRO_STATUS_WRITE_ERROR : ErrorStatus := 11

/-- A C `double`, kept as its bit pattern: the binding only passes doubles through. -/
structure Double where
  bits : Nat
deriving DecidableEq, Repr

/-- The two static `cairo_user_data_key_t` objects of the file; the native library
tells keys apart by address, so there are exactly two distinct keys. -/
inductive UserDataKey where
  | write_func
  | read_func
deriving DecidableEq, Repr

def USER_DATA_KEY_WRITE_FUNC : UserDataKey := UserDataKey.write_func
def USER_DATA_KEY_READ_FUNC : UserDataKey := UserDataKey.read_func

/-- A value of type `cairo_write_func_t`: the address of `write_func_wrapper`, or
some other function pointer supplied by the caller. -/
inductive WriteFn where
  | write_func_wrapper
  | raw (addr : Ptr)
deriving DecidableEq, Repr

/-- A value of type `cairo_read_func_t`. -/
inductive ReadFn where
  | read_func_wrapper
  | raw (addr : Ptr)
deriving DecidableEq, Repr

/-- One call into the native library (or, for `FontOptions_assign`, into the
`FontOptions` class of cairomm), with the arguments it was given. -/
inductive Call where
  | cairo_surface_reference (s : Ptr)
  | cairo_surface_destroy (s : Ptr)
  | cairo_surface_get_user_data (s : Ptr) (key : UserDataKey)
  | cairo_surface_set_user_data (s : Ptr) (key : UserDataKey) (data : Ptr)
  | cairo_surface_status (s : Ptr)
  | cairo_surface_finish (s : Ptr)
  | cairo_font_options_create
  | cairo_surface_get_font_options (s : Ptr) (fo : Ptr)
  | FontOptions_assign (fo : Ptr)
  | cairo_font_options_destroy (fo : Ptr)
  | cairo_surface_flush (s : Ptr)
  | cairo_surface_mark_dirty (s : Ptr)
  | cairo_surface_mark_dirty_rectangle (s : Ptr) (x y width height : Int)
  | cairo_surface_set_device_offset (s : Ptr) (x y : Double)
  | cairo_surface_get_device_offset (s : Ptr)
  | cairo_surface_set_fallback_resolution (s : Ptr) (x y : Double)
  | cairo_surface_get_type (s : Ptr)
  | cairo_surface_copy_page (s : Ptr)
  | cairo_surface_show_page (s : Ptr)
  | cairo_surface_write_to_png (s : Ptr) (filename : String)
  | cairo_surface_write_to_png_stream (s : Ptr) (f : WriteFn) (closure : Ptr)
  | cairo_surface_create_similar (other : Ptr) (content width height : Int)
  | cairo_image_surface_create (format width height : Int)
  | cairo_image_surface_create_for_data (data : Ptr) (format width height stride : Int)
  | cairo_image_surface_create_from_png (filename : String)
  | cairo_image_surface_create_from_png_stream (f : ReadFn) (closure : Ptr)
  | cairo_image_surface_get_width (s : Ptr)
  | cairo_image_surface_get_height (s : Ptr)
  | cairo_image_surface_get_data (s : Ptr)
  | cairo_image_surface_get_format (s : Ptr)
  | cairo_image_surface_get_stride (s : Ptr)
  | cairo_pdf_surface_create (filename : String) (w h : Double)
  | cairo_pdf_surface_create_for_stream (f : WriteFn) (closure : Ptr) (w h : Double)
  | cairo_pdf_surface_set_size (s : Ptr) (w h : Double)
  | cairo_ps_surface_create (filename : String) (w h : Double)
  | cairo_ps_surface_create_for_stream (f : WriteFn) (closure : Ptr) (w h : Double)
  | cairo_ps_surface_set_size (s : Ptr) (w h : Double)
  | cairo_ps_surface_dsc_comment (s : Ptr) (comment : String)
  | cairo_ps_surface_dsc_begin_setup (s : Ptr)
  | cairo_ps_surface_dsc_begin_page_setup (s : Ptr)
  | cairo_ps_surface_set_eps (s : Ptr) (eps : Bool)
  | cairo_ps_surface_restrict_to_level (s : Ptr) (level : Int)
  | cairo_ps_get_levels
  | cairo_svg_surface_create (filename : String) (w h : Double)
  | cairo_svg_surface_create_for_stream (f : WriteFn) (closure : Ptr) (w h : Double)
  | cairo_svg_surface_restrict_to_version (s : Ptr) (version : Int)
  | cairo_svg_get_versions
  | cairo_glitz_surface_create (glitz : Ptr)

/-- The native library as the binding sees it: what a call returns, given the
calls issued before it.  `retInt` answers calls returning an integer or an enum
(in particular `cairo_surface_status`), `retPtr` calls returning a pointer,
`retOffset` the two out-parameters of `cairo_surface_get_device_offset`, and
`retArray` the array (read by index) and the count stored by
`cairo_ps_get_levels` and `cairo_svg_get_versions`. -/
structure Native where
  retInt : List Call → Call → Int
  retPtr : List Call → Call → Ptr
  retOffset : List Call → Call → Double × Double
  retArray : List Call → Call → (Nat → Int) × Int

/-- One execution of a bound callable: the slot object invoked, and the buffer and
length it was given. -/
structure Invocation where
  slot : Ptr
  data : Ptr
  length : Nat
deriving DecidableEq, Repr

/-- The type `Surface::SlotWriteFunc`, a bound callable `(buffer, length) -> status`.
The status it returns may depend on the invocations made before. -/
structure SlotWriteFunc where
  run : List Invocation → Ptr → Nat → ErrorStatus

/-- The type `Surface::SlotReadFunc`; it has the same representation as
`SlotWriteFunc` (the file frees both through `free_slot`). -/
abbrev SlotReadFunc := SlotWriteFunc

/-- The state the binding acts on. -/
structure World where
  /-- native calls issued so far, oldest first -/
  trace : List Call
  /-- native reference count of every surface handle -/
  refcount : Ptr → Int
  /-- user data attached to a handle under a key (`0`: nothing attached) -/
  userData : Ptr → UserDataKey → Ptr
  /-- slot objects alive on the C++ heap -/
  heap : Ptr → Option SlotWriteFunc
  /-- the last address handed out by `new` -/
  nextPtr : Ptr
  /-- addresses given to `delete`, oldest first -/
  freed : List Ptr
  /-- invocations of bound callables, oldest first -/
  invoked : List Invocation

/-- The world before anything happened. -/
def World.empty : World :=
  { trace := [], refcount := fun _ => 0, userData := fun _ _ => 0,
    heap := fun _ => none, nextPtr := 0, freed := [], invoked := [] }

/-! ## Computations -/

/-- How a computation ends: it returns, it throws an exception carrying a
status, or it has undefined behaviour. -/
inductive Outcome (α : Type) where
  | ok (a : α)
  | raised (e : ErrorStatus)
  | undefined

/-- A computation over the world.  The world is kept when an exception is thrown. -/
def M (α : Type) : Type := World → Outcome α × World

/-- Return `a` without touching the world. -/
def M.pure {α : Type} (a : α) : M α := fun w => (Outcome.ok a, w)

/-- Run `m`, then `f` on its result; an exception or undefined behaviour in `m` ends
the computation. -/
def M.bind {α β : Type} (m : M α) (f : α → M β) : M β := fun w =>
  match m w with
  | (Outcome.ok a, w1) => f a w1
  | (Outcome.raised e, w1) => (Outcome.raised e, w1)
  | (Outcome.undefined, w1) => (Outcome.undefined, w1)

instance : Monad M where
  pure := M.pure
  bind := M.bind

/-- The C++ statement `throw` with an exception carrying `e`. -/
def throw_exception {α : Type} (e : ErrorStatus) : M α := fun w => (Outcome.raised e, w)

/-- Record a native call in the log. -/
def logCall (c : Call) : M Unit := fun w =>
  (Outcome.ok (), { w with trace := w.trace ++ [c] })

/-- A native call whose only visible effect is inside the native library. -/
def nativeVoid (c : Call) : M Unit := logCall c

/-- A native call returning an integer or an enum value. -/
def nativeInt (N : Native) (c : Call) : M Int := fun w =>
  (Outcome.ok (N.retInt w.trace c), { w with trace := w.trace ++ [c] })

/-- A native call returning a pointer. -/
def nativePtr (N : Native) (c : Call) : M Ptr := fun w =>
  (Outcome.ok (N.retPtr w.trace c), { w with trace := w.trace ++ [c] })

/-! ## The C++ heap of slot objects -/

/-- The expression `new SlotWriteFunc(f)`: a copy of `f` at a fresh non-null address. -/
def new_slot (f : SlotWriteFunc) : M Ptr := fun w =>
  let p := w.nextPtr + 1
  (Outcome.ok p,
    { w with nextPtr := p, heap := fun q => if q = p then some f else w.heap q })

/-- The statement `delete slot`.  Deleting the null pointer does nothing; deleting
an object that is not alive (a second `delete` of the same object) is undefined
behaviour.  Every execution on a non-null pointer is logged. -/
def delete_slot (slot : Ptr) : M Unit := fun w =>
  if slot = 0 then (Outcome.ok (), w)
  else
    match w.heap slot with
    | none => (Outcome.undefined, { w with freed := w.freed ++ [slot] })
    | some _ =>
      (Outcome.ok (),
        { w with freed := w.freed ++ [slot],
                 heap := fun q => if q = slot then none else w.heap q })

/-- Source: `free_slot`, lines 28-33. -/
def free_slot (data : Ptr) : M Unit :=
  delete_slot data

/-- Calling through a slot pointer, `(*slot)(data, length)`.  The call is undefined
when no slot object is alive at that address. -/
def invoke_slot (slot data : Ptr) (length : Nat) : M ErrorStatus := fun w =>
  match w.heap slot with
  | none => (Outcome.undefined, w)
  | some f =>
    (Outcome.ok (f.run w.invoked data length),
      { w with invoked := w.invoked ++ [{ slot := slot, data := data, length := length }] })

/-! ## The native functions with a contract the binding relies on -/

/-- Native `cairo_surface_reference`, by its contract (spec section 3: the handle is
"reference-counted"; borrowing "acquires its own new reference"): adds one
reference and returns its argument; on the null pointer it does nothing. -/
def cairo_surface_reference (s : Ptr) : M Ptr := do
  logCall (Call.cairo_surface_reference s)
  if s = 0 then pure 0
  else fun w =>
    (Outcome.ok s,
      { w with refcount := fun h => if h = s then w.refcount s + 1 else w.refcount h })

/-- Native `cairo_surface_get_user_data`, by its contract: the data attached under
the key, or null. -/
def cairo_surface_get_user_data (s : Ptr) (key : UserDataKey) : M Ptr := do
  logCall (Call.cairo_surface_get_user_data s key)
  fun w => (Outcome.ok (w.userData s key), w)

/-- Fire the destroy hook of the data attached under `key`, if any, and clear the
entry.  Every entry in this file is registered with the hook `free_slot`. -/
def fire_destroy_hook (s : Ptr) (key : UserDataKey) : M Unit := do
  let old ← (fun w => (Outcome.ok (w.userData s key), w) : M Ptr)
  if old ≠ 0 then free_slot old
  fun w =>
    (Outcome.ok (),
      { w with userData := fun h k => if h = s ∧ k = key then 0 else w.userData h k })

/-- Native `cairo_surface_set_user_data` with destroy hook `free_slot`, by its
contract.  The cairo manual says of the hook that it is called "when the surface
is destroyed or when new user data is attached using the same key", and section 3
of the spec that the native handle releases the allocation "via a deleter hook
fired at handle-destruction time or at re-attachment time": the data attached
before is handed to its hook, then the new data takes its place. -/
def cairo_surface_set_user_data (s : Ptr) (key : UserDataKey) (data : Ptr) : M Unit := do
  logCall (Call.cairo_surface_set_user_data s key data)
  fire_destroy_hook s key
  fun w =>
    (Outcome.ok (),
      { w with userData := fun h k => if h = s ∧ k = key then data else w.userData h k })

/-- The two destroy hooks a surface can carry in this file, fired when the surface
is freed. -/
def run_destroy_hooks (s : Ptr) : M Unit := do
  fire_destroy_hook s USER_DATA_KEY_WRITE_FUNC
  fire_destroy_hook s USER_DATA_KEY_READ_FUNC

/-- Take one reference away from `s` and return the new count. -/
def drop_reference (s : Ptr) : M Int := fun w =>
  (Outcome.ok (w.refcount s - 1),
    { w with refcount := fun h => if h = s then w.refcount s - 1 else w.refcount h })

/-- Native `cairo_surface_destroy`, by its contract (spec section 3: "if the count
reaches zero the native resource is freed", with the deleter hooks "fired at
handle-destruction time"): drops one reference; when the count reaches zero the
destroy hooks of the user data are called.  On the null pointer it does nothing. -/
def cairo_surface_destroy (s : Ptr) : M Unit := do
  logCall (Call.cairo_surface_destroy s)
  if s = 0 then pure ()
  else do
    let n ← drop_reference s
    if n = 0 then run_destroy_hooks s

/-- Native `cairo_surface_status`: the status latched on the handle. -/
def cairo_surface_status (N : Native) (s : Ptr) : M ErrorStatus :=
  nativeInt N (Call.cairo_surface_status s)

/-! ## Helpers of cairomm declared in `private.h` and `surface.h` -/

/-- Modelled from the spec: `check_status_and_throw_exception` of `private.h`
(section 4.1: "given a native status code, if it denotes success, does nothing;
otherwise raises an error carrying that status code"). -/
def check_status_and_throw_exception (status : ErrorStatus) : M Unit :=
  if status = CAIRO_STATUS_SUCCESS then pure () else throw_exception status

/-! ## `surface.cc` -/

/-- Source: `get_slot`, lines 35-39. -/
def get_slot (surface : Ptr) : M Ptr :=
  cairo_surface_get_user_data surface USER_DATA_KEY_WRITE_FUNC

/-- Source: `set_read_slot`, lines 41-46. -/
def set_read_slot (surface : Ptr) (slot : Ptr) : M Unit :=
  cairo_surface_set_user_data surface USER_DATA_KEY_READ_FUNC slot

/-- Source: `set_write_slot`, lines 48-53. -/
def set_write_slot (surface : Ptr) (slot : Ptr) : M Unit :=
  cairo_surface_set_user_data surface USER_DATA_KEY_WRITE_FUNC slot

/-- Source: `read_func_wrapper`, lines 55-61. -/
def read_func_wrapper (closure : Ptr) (data : Ptr) (length : Nat) : M ErrorStatus :=
  if closure = 0 then pure CAIRO_STATUS_READ_ERROR
  else do
    let read_func := closure
    invoke_slot read_func data length

/-- Source: `write_func_wrapper`, lines 63-69. -/
def write_func_wrapper (closure : Ptr) (data : Ptr) (length : Nat) : M ErrorStatus :=
  if closure = 0 then pure CAIRO_STATUS_WRITE_ERROR
  else do
    let write_func := closure
    invoke_slot write_func data length

/-- The class `Surface`: its only data member is the native handle `m_cobject`. -/
structure Surface where
  m_cobject : Ptr
deriving DecidableEq, Repr

/-- Source: constructor `Surface::Surface(cobject, has_reference)`, lines 71-78. -/
def Surface.ctor (cobject : Ptr) (has_reference : Bool) : M Surface :=
  if has_reference then pure { m_cobject := cobject }
  else do
    let p ← cairo_surface_reference cobject
    pure { m_cobject := p }

/-- Source: destructor of `Surface`, lines 80-84. -/
def Surface.dtor (self : Surface) : M Unit :=
  if self.m_cobject ≠ 0 then cairo_surface_destroy self.m_cobject
  else pure ()

/-- Modelled from the spec: `check_object_status_and_throw_exception` of
`private.h` applied to a surface wrapper (section 4.1: it "queries the current
status recorded on its native handle ... and raises based on that latched
status"); `Surface::get_status` of `surface.h` is the native status query. -/
def check_object_status_and_throw_exception (N : Native) (object : Surface) : M Unit := do
  let status ← cairo_surface_status N object.m_cobject
  check_status_and_throw_exception status

/-- The two out-parameters a native getter stores. -/
def nativeOffset (N : Native) (c : Call) : M (Double × Double) := fun w =>
  (Outcome.ok (N.retOffset w.trace c), { w with trace := w.trace ++ [c] })

/-- The array and the count a native enumeration stores. -/
def nativeArray (N : Native) (c : Call) : M ((Nat → Int) × Int) := fun w =>
  (Outcome.ok (N.retArray w.trace c), { w with trace := w.trace ++ [c] })

/-- Source: `Surface::finish`, lines 86-90. -/
def Surface.finish (N : Native) (self : Surface) : M Unit := do
  nativeVoid (Call.cairo_surface_finish self.m_cobject)
  check_object_status_and_throw_exception N self

/-- Native `cairo_font_options_create`. -/
def cairo_font_options_create (N : Native) : M Ptr :=
  nativePtr N Call.cairo_font_options_create

/-- Modelled from the spec: the statement `options = FontOptions(cfontoptions)`,
whose class `FontOptions` lives in `fontoptions.cc` (section 4.3: the function
"populates a caller-provided font-options value").  The assignment to the
caller's value is one entry of the log, so that it is visible also when the
function throws afterwards. -/
def assign_FontOptions (cfontoptions : Ptr) : M Unit :=
  logCall (Call.FontOptions_assign cfontoptions)

/-- Source: `Surface::get_font_options`, lines 92-99. -/
def Surface.get_font_options (N : Native) (self : Surface) : M Unit := do
  let cfontoptions ← cairo_font_options_create N
  nativeVoid (Call.cairo_surface_get_font_options self.m_cobject cfontoptions)
  assign_FontOptions cfontoptions
  nativeVoid (Call.cairo_font_options_destroy cfontoptions)
  check_object_status_and_throw_exception N self

/-- Source: `Surface::flush`, lines 101-105. -/
def Surface.flush (N : Native) (self : Surface) : M Unit := do
  nativeVoid (Call.cairo_surface_flush self.m_cobject)
  check_object_status_and_throw_exception N self

/-- Source: `Surface::mark_dirty()`, lines 107-111. -/
def Surface.mark_dirty (N : Native) (self : Surface) : M Unit := do
  nativeVoid (Call.cairo_surface_mark_dirty self.m_cobject)
  check_object_status_and_throw_exception N self

/-- Source: `Surface::mark_dirty(x, y, width, height)`, lines 113-117. -/
def Surface.mark_dirty_rectangle (N : Native) (self : Surface) (x y width height : Int) :
    M Unit := do
  nativeVoid (Call.cairo_surface_mark_dirty_rectangle self.m_cobject x y width height)
  check_object_status_and_throw_exception N self

/-- Source: `Surface::set_device_offset`, lines 119-123. -/
def Surface.set_device_offset (N : Native) (self : Surface) (x_offset y_offset : Double) :
    M Unit := do
  nativeVoid (Call.cairo_surface_set_device_offset self.m_cobject x_offset y_offset)
  check_object_status_and_throw_exception N self

/-- Source: `Surface::get_device_offset`, lines 125-128; the two reference
parameters are returned as a pair. -/
def Surface.get_device_offset (N : Native) (self : Surface) : M (Double × Double) :=
  nativeOffset N (Call.cairo_surface_get_device_offset self.m_cobject)

/-- Source: `Surface::set_fallback_resolution`, lines 130-134. -/
def Surface.set_fallback_resolution (N : Native) (self : Surface)
    (x_pixels_per_inch y_pixels_per_inch : Double) : M Unit := do
  nativeVoid (Call.cairo_surface_set_fallback_resolution self.m_cobject
    x_pixels_per_inch y_pixels_per_inch)
  check_object_status_and_throw_exception N self

/-- The enum `SurfaceType`, by its underlying integer. -/
abbrev SurfaceType := Int

/-- Source: `Surface::get_type`, lines 136-141. -/
def Surface.get_type (N : Native) (self : Surface) : M SurfaceType := do
  let surface_type ← nativeInt N (Call.cairo_surface_get_type self.m_cobject)
  check_object_status_and_throw_exception N self
  pure surface_type

/-- Source: `Surface::copy_page`, lines 143-147. -/
def Surface.copy_page (N : Native) (self : Surface) : M Unit := do
  nativeVoid (Call.cairo_surface_copy_page self.m_cobject)
  check_object_status_and_throw_exception N self

/-- Source: `Surface::show_page`, lines 149-153. -/
def Surface.show_page (N : Native) (self : Surface) : M Unit := do
  nativeVoid (Call.cairo_surface_show_page self.m_cobject)
  check_object_status_and_throw_exception N self

/-- Source: `Surface::write_to_png(filename)`, lines 156-160. -/
def Surface.write_to_png (N : Native) (self : Surface) (filename : String) : M Unit := do
  let status ← nativeInt N (Call.cairo_surface_write_to_png self.m_cobject filename)
  check_status_and_throw_exception status

/-- Source: `Surface::write_to_png_stream`, lines 162-173. -/
def Surface.write_to_png_stream (N : Native) (self : Surface) (write_func : SlotWriteFunc) :
    M Unit := do
  let old_slot ← get_slot self.m_cobject
  if old_slot ≠ 0 then
    delete_slot old_slot
  let slot_copy ← new_slot write_func
  set_write_slot self.m_cobject slot_copy
  let status ← nativeInt N (Call.cairo_surface_write_to_png_stream self.m_cobject
    WriteFn.write_func_wrapper slot_copy)
  check_status_and_throw_exception status

/-- Source: `Surface::write_to_png(write_func, closure)`, lines 175-179. -/
def Surface.write_to_png_raw (N : Native) (self : Surface) (write_func : Ptr) (closure : Ptr) :
    M Unit := do
  let status ← nativeInt N (Call.cairo_surface_write_to_png_stream self.m_cobject
    (WriteFn.raw write_func) closure)
  check_status_and_throw_exception status

/-- Source: `Surface::reference`, lines 182-185. -/
def Surface.reference (self : Surface) : M Unit := do
  let _ ← cairo_surface_reference self.m_cobject

/-- Source: `Surface::unreference`, lines 187-190. -/
def Surface.unreference (self : Surface) : M Unit :=
  cairo_surface_destroy self.m_cobject

/-- Source: `Surface::create`, lines 192-197. -/
def Surface.create (N : Native) (other : Surface) (content : Int) (width height : Int) :
    M Surface := do
  let cobject ← nativePtr N (Call.cairo_surface_create_similar other.m_cobject content
    width height)
  let status ← cairo_surface_status N cobject
  check_status_and_throw_exception status
  Surface.ctor cobject true

/-! ### `ImageSurface` -/

/-- The class `ImageSurface`, derived from `Surface` without data members. -/
structure ImageSurface extends Surface
deriving DecidableEq, Repr

/-- Source: constructor of `ImageSurface`, lines 201-203. -/
def ImageSurface.ctor (cobject : Ptr) (has_reference : Bool) : M ImageSurface := do
  let base ← Surface.ctor cobject has_reference
  pure { toSurface := base }

/-- Source: destructor of `ImageSurface`, lines 205-208; the surface is destroyed
in the base class. -/
def ImageSurface.dtor (self : ImageSurface) : M Unit :=
  Surface.dtor self.toSurface

/-- Source: `ImageSurface::create(format, width, height)`, lines 210-215. -/
def ImageSurface.create (N : Native) (format : Int) (width height : Int) : M ImageSurface := do
  let cobject ← nativePtr N (Call.cairo_image_surface_create format width height)
  let status ← cairo_surface_status N cobject
  check_status_and_throw_exception status
  ImageSurface.ctor cobject true

/-- Source: `ImageSurface::create(data, format, width, height, stride)`, lines 217-222. -/
def ImageSurface.create_for_data (N : Native) (data : Ptr) (format : Int)
    (width height stride : Int) : M ImageSurface := do
  let cobject ← nativePtr N (Call.cairo_image_surface_create_for_data data format
    width height stride)
  let status ← cairo_surface_status N cobject
  check_status_and_throw_exception status
  ImageSurface.ctor cobject true

/-- Source: `ImageSurface::create_from_png(filename)`, lines 226-231. -/
def ImageSurface.create_from_png (N : Native) (filename : String) : M ImageSurface := do
  let cobject ← nativePtr N (Call.cairo_image_surface_create_from_png filename)
  let status ← cairo_surface_status N cobject
  check_status_and_throw_exception status
  ImageSurface.ctor cobject true

/-- Source: `ImageSurface::create_from_png_stream`, lines 233-241. -/
def ImageSurface.create_from_png_stream (N : Native) (read_func : SlotReadFunc) :
    M ImageSurface := do
  let slot_copy ← new_slot read_func
  let cobject ← nativePtr N (Call.cairo_image_surface_create_from_png_stream
    ReadFn.read_func_wrapper slot_copy)
  let status ← cairo_surface_status N cobject
  check_status_and_throw_exception status
  set_read_slot cobject slot_copy
  ImageSurface.ctor cobject true

/-- Source: `ImageSurface::create_from_png(read_func, closure)`, lines 243-248. -/
def ImageSurface.create_from_png_raw (N : Native) (read_func : Ptr) (closure : Ptr) :
    M ImageSurface := do
  let cobject ← nativePtr N (Call.cairo_image_surface_create_from_png_stream
    (ReadFn.raw read_func) closure)
  let status ← cairo_surface_status N cobject
  check_status_and_throw_exception status
  ImageSurface.ctor cobject true

/-- Source: `ImageSurface::get_width`, lines 252-257. -/
def ImageSurface.get_width (N : Native) (self : ImageSurface) : M Int := do
  let result ← nativeInt N (Call.cairo_image_surface_get_width self.m_cobject)
  check_object_status_and_throw_exception N self.toSurface
  pure result

/-- Source: `ImageSurface::get_height`, lines 259-264. -/
def ImageSurface.get_height (N : Native) (self : ImageSurface) : M Int := do
  let result ← nativeInt N (Call.cairo_image_surface_get_height self.m_cobject)
  check_object_status_and_throw_exception N self.toSurface
  pure result

/-- Source: `ImageSurface::get_data()`, lines 266-269. -/
def ImageSurface.get_data (N : Native) (self : ImageSurface) : M Ptr :=
  nativePtr N (Call.cairo_image_surface_get_data self.m_cobject)

/-- Source: `ImageSurface::get_data() const`, lines 271-274. -/
def ImageSurface.get_data_const (N : Native) (self : ImageSurface) : M Ptr :=
  nativePtr N (Call.cairo_image_surface_get_data self.m_cobject)

/-- The enum `Format`, by its underlying integer. -/
abbrev Format := Int

/-- Source: `ImageSurface::get_format`, lines 276-279. -/
def ImageSurface.get_format (N : Native) (self : ImageSurface) : M Format :=
  nativeInt N (Call.cairo_image_surface_get_format self.m_cobject)

/-- Source: `ImageSurface::get_stride`, lines 281-284. -/
def ImageSurface.get_stride (N : Native) (self : ImageSurface) : M Int :=
  nativeInt N (Call.cairo_image_surface_get_stride self.m_cobject)

/-! ### `PdfSurface` -/

/-- The class `PdfSurface`, derived from `Surface` without data members. -/
structure PdfSurface extends Surface
deriving DecidableEq, Repr

/-- Source: constructor of `PdfSurface`, lines 298-300. -/
def PdfSurface.ctor (cobject : Ptr) (has_reference : Bool) : M PdfSurface := do
  let base ← Surface.ctor cobject has_reference
  pure { toSurface := base }

/-- Source: destructor of `PdfSurface`, lines 302-305; the surface is destroyed in the
base class. -/
def PdfSurface.dtor (self : PdfSurface) : M Unit :=
  Surface.dtor self.toSurface

/-- Source: `PdfSurface::create(filename, width_in_points, height_in_points)`, lines 307-312. -/
def PdfSurface.create (N : Native) (filename : String)
    (width_in_points height_in_points : Double) : M PdfSurface := do
  let cobject ← nativePtr N (Call.cairo_pdf_surface_create filename
    width_in_points height_in_points)
  let status ← cairo_surface_status N cobject
  check_status_and_throw_exception status
  PdfSurface.ctor cobject true

/-- Source: `PdfSurface::create_for_stream`, lines 321-331. -/
def PdfSurface.create_for_stream (N : Native) (write_func : SlotWriteFunc)
    (width_in_points height_in_points : Double) : M PdfSurface := do
  let slot_copy ← new_slot write_func
  let cobject ← nativePtr N (Call.cairo_pdf_surface_create_for_stream
    WriteFn.write_func_wrapper slot_copy width_in_points height_in_points)
  let status ← cairo_surface_status N cobject
  check_status_and_throw_exception status
  set_write_slot cobject slot_copy
  PdfSurface.ctor cobject true

/-- Source: `PdfSurface::create(write_func, closure, width_in_points, height_in_points)`,
lines 314-319. -/
def PdfSurface.create_raw (N : Native) (write_func : Ptr) (closure : Ptr)
    (width_in_points height_in_points : Double) : M PdfSurface := do
  let cobject ← nativePtr N (Call.cairo_pdf_surface_create_for_stream
    (WriteFn.raw write_func) closure width_in_points height_in_points)
  let status ← cairo_surface_status N cobject
  check_status_and_throw_exception status
  PdfSurface.ctor cobject true

/-- Source: `PdfSurface::set_size`, lines 333-337. -/
def PdfSurface.set_size (N : Native) (self : PdfSurface)
    (width_in_points height_in_points : Double) : M Unit := do
  nativeVoid (Call.cairo_pdf_surface_set_size self.m_cobject width_in_points height_in_points)
  check_object_status_and_throw_exception N self.toSurface

/-! ### `PsSurface` -/

/-- The class `PsSurface`, derived from `Surface` without data members. -/
structure PsSurface extends Surface
deriving DecidableEq, Repr

/-- Source: constructor of `PsSurface`, lines 346-348. -/
def PsSurface.ctor (cobject : Ptr) (has_reference : Bool) : M PsSurface := do
  let base ← Surface.ctor cobject has_reference
  pure { toSurface := base }

/-- Source: destructor of `PsSurface`, lines 350-353; the surface is destroyed in the
base class. -/
def PsSurface.dtor (self : PsSurface) : M Unit :=
  Surface.dtor self.toSurface

/-- Source: `PsSurface::create(filename, width_in_points, height_in_points)`, lines 355-360. -/
def PsSurface.create (N : Native) (filename : String)
    (width_in_points height_in_points : Double) : M PsSurface := do
  let cobject ← nativePtr N (Call.cairo_ps_surface_create filename
    width_in_points height_in_points)
  let status ← cairo_surface_status N cobject
  check_status_and_throw_exception status
  PsSurface.ctor cobject true

/-- Source: `PsSurface::create_for_stream`, lines 362-372. -/
def PsSurface.create_for_stream (N : Native) (write_func : SlotWriteFunc)
    (width_in_points height_in_points : Double) : M PsSurface := do
  let slot_copy ← new_slot write_func
  let cobject ← nativePtr N (Call.cairo_ps_surface_create_for_stream
    WriteFn.write_func_wrapper slot_copy width_in_points height_in_points)
  let status ← cairo_surface_status N cobject
  check_status_and_throw_exception status
  set_write_slot cobject slot_copy
  PsSurface.ctor cobject true

/-- Source: `PsSurface::create(write_func, closure, width_in_points, height_in_points)`,
lines 374-379. -/
def PsSurface.create_raw (N : Native) (write_func : Ptr) (closure : Ptr)
    (width_in_points height_in_points : Double) : M PsSurface := do
  let cobject ← nativePtr N (Call.cairo_ps_surface_create_for_stream
    (WriteFn.raw write_func) closure width_in_points height_in_points)
  let status ← cairo_surface_status N cobject
  check_status_and_throw_exception status
  PsSurface.ctor cobject true

/-- Source: `PsSurface::set_size`, lines 381-385. -/
def PsSurface.set_size (N : Native) (self : PsSurface)
    (width_in_points height_in_points : Double) : M Unit := do
  nativeVoid (Call.cairo_ps_surface_set_size self.m_cobject width_in_points height_in_points)
  check_object_status_and_throw_exception N self.toSurface

/-- Source: `PsSurface::dsc_comment`, lines 388-392. -/
def PsSurface.dsc_comment (N : Native) (self : PsSurface) (comment : String) : M Unit := do
  nativeVoid (Call.cairo_ps_surface_dsc_comment self.m_cobject comment)
  check_object_status_and_throw_exception N self.toSurface

/-- Source: `PsSurface::dsc_begin_setup`, lines 394-398. -/
def PsSurface.dsc_begin_setup (N : Native) (self : PsSurface) : M Unit := do
  nativeVoid (Call.cairo_ps_surface_dsc_begin_setup self.m_cobject)
  check_object_status_and_throw_exception N self.toSurface

/-- Source: `PsSurface::dsc_begin_page_setup`, lines 400-404. -/
def PsSurface.dsc_begin_page_setup (N : Native) (self : PsSurface) : M Unit := do
  nativeVoid (Call.cairo_ps_surface_dsc_begin_page_setup self.m_cobject)
  check_object_status_and_throw_exception N self.toSurface

/-- Source: `PsSurface::set_eps`, lines 406-410. -/
def PsSurface.set_eps (N : Native) (self : PsSurface) (eps : Bool) : M Unit := do
  nativeVoid (Call.cairo_ps_surface_set_eps self.m_cobject eps)
  check_object_status_and_throw_exception N self.toSurface

/-- The enum `PsLevel`; its enumerators are defined as the native ones, so it is
kept as the underlying integer. -/
abbrev PsLevel := Int

/-- The enum `cairo_ps_level_t`, by its underlying integer. -/
abbrev cairo_ps_level_t := Int

/-- The conversion `static_cast<PsLevel>(level)`. -/
def PsLevel.ofNative (level : cairo_ps_level_t) : PsLevel := level

/-- The conversion `static_cast<cairo_ps_level_t>(level)`. -/
def PsLevel.toNative (level : PsLevel) : cairo_ps_level_t := level

/-- Source: `PsSurface::restrict_to_level`, lines 412-416. -/
def PsSurface.restrict_to_level (N : Native) (self : PsSurface) (level : PsLevel) :
    M Unit := do
  nativeVoid (Call.cairo_ps_surface_restrict_to_level self.m_cobject (PsLevel.toNative level))
  check_object_status_and_throw_exception N self.toSurface

/-- Source: the loop of `PsSurface::get_levels`, lines 428-431, entered with the
counter at `i` and the vector holding `vec`. -/
def PsSurface.get_levels_loop (levels : Nat → cairo_ps_level_t) (num_levels : Int)
    (i : Nat) (vec : List PsLevel) : List PsLevel :=
  if (i : Int) < num_levels then
    PsSurface.get_levels_loop levels num_levels (i + 1) (vec ++ [PsLevel.ofNative (levels i)])
  else vec
termination_by (num_levels - (i : Int)).toNat
decreasing_by omega

/-- Source: `PsSurface::get_levels`, lines 418-433. -/
def PsSurface.get_levels (N : Native) : M (List PsLevel) := do
  let (levels, num_levels) ← nativeArray N Call.cairo_ps_get_levels
  let vec : List PsLevel := []
  pure (PsSurface.get_levels_loop levels num_levels 0 vec)

/-! ### `SvgSurface` -/

/-- The class `SvgSurface`, derived from `Surface` without data members. -/
structure SvgSurface extends Surface
deriving DecidableEq, Repr

/-- Source: constructor of `SvgSurface`, lines 447-449. -/
def SvgSurface.ctor (cobject : Ptr) (has_reference : Bool) : M SvgSurface := do
  let base ← Surface.ctor cobject has_reference
  pure { toSurface := base }

/-- Source: destructor of `SvgSurface`, lines 451-454; the surface is destroyed in the
base class. -/
def SvgSurface.dtor (self : SvgSurface) : M Unit :=
  Surface.dtor self.toSurface

/-- Source: `SvgSurface::create(filename, width_in_points, height_in_points)`, lines 456-461. -/
def SvgSurface.create (N : Native) (filename : String)
    (width_in_points height_in_points : Double) : M SvgSurface := do
  let cobject ← nativePtr N (Call.cairo_svg_surface_create filename
    width_in_points height_in_points)
  let status ← cairo_surface_status N cobject
  check_status_and_throw_exception status
  SvgSurface.ctor cobject true

/-- Source: `SvgSurface::create_for_stream`, lines 463-474. -/
def SvgSurface.create_for_stream (N : Native) (write_func : SlotWriteFunc)
    (width_in_points height_in_points : Double) : M SvgSurface := do
  let slot_copy ← new_slot write_func
  let cobject ← nativePtr N (Call.cairo_svg_surface_create_for_stream
    WriteFn.write_func_wrapper slot_copy width_in_points height_in_points)
  let status ← cairo_surface_status N cobject
  check_status_and_throw_exception status
  set_write_slot cobject slot_copy
  SvgSurface.ctor cobject true

/-- Source: `SvgSurface::create(write_func, closure, width_in_points, height_in_points)`,
lines 476-481. -/
def SvgSurface.create_raw (N : Native) (write_func : Ptr) (closure : Ptr)
    (width_in_points height_in_points : Double) : M SvgSurface := do
  let cobject ← nativePtr N (Call.cairo_svg_surface_create_for_stream
    (WriteFn.raw write_func) closure width_in_points height_in_points)
  let status ← cairo_surface_status N cobject
  check_status_and_throw_exception status
  SvgSurface.ctor cobject true

/-- The enum `SvgVersion`, kept as the underlying integer. -/
abbrev SvgVersion := Int

/-- The enum `cairo_svg_version_t`, by its underlying integer. -/
abbrev cairo_svg_version_t := Int

/-- The conversion `static_cast<SvgVersion>(version)`. -/
def SvgVersion.ofNative (version : cairo_svg_version_t) : SvgVersion := version

/-- The conversion `static_cast<cairo_svg_version_t>(version)`. -/
def SvgVersion.toNative (version : SvgVersion) : cairo_svg_version_t := version

/-- Source: `SvgSurface::restrict_to_version`, lines 483-487. -/
def SvgSurface.restrict_to_version (N : Native) (self : SvgSurface) (version : SvgVersion) :
    M Unit := do
  nativeVoid (Call.cairo_svg_surface_restrict_to_version self.m_cobject
    (SvgVersion.toNative version))
  check_object_status_and_throw_exception N self.toSurface

/-- Source: the loop of `SvgSurface::get_versions`, lines 499-502, entered with the
counter at `i` and the vector holding `vec`. -/
def SvgSurface.get_versions_loop (versions : Nat → cairo_svg_version_t) (num_versions : Int)
    (i : Nat) (vec : List SvgVersion) : List SvgVersion :=
  if (i : Int) < num_versions then
    SvgSurface.get_versions_loop versions num_versions (i + 1)
      (vec ++ [SvgVersion.ofNative (versions i)])
  else vec
termination_by (num_versions - (i : Int)).toNat
decreasing_by omega

/-- Source: `SvgSurface::get_versions`, lines 489-504. -/
def SvgSurface.get_versions (N : Native) : M (List SvgVersion) := do
  let (versions, num_versions) ← nativeArray N Call.cairo_svg_get_versions
  let vec : List SvgVersion := []
  pure (SvgSurface.get_versions_loop versions num_versions 0 vec)

/-! ### `GlitzSurface` -/

/-- The class `GlitzSurface`, derived from `Surface` without data members. -/
structure GlitzSurface extends Surface
deriving DecidableEq, Repr

/-- Source: constructor of `GlitzSurface`, lines 518-520. -/
def GlitzSurface.ctor (cobject : Ptr) (has_reference : Bool) : M GlitzSurface := do
  let base ← Surface.ctor cobject has_reference
  pure { toSurface := base }

/-- Source: destructor of `GlitzSurface`, lines 522-525. -/
def GlitzSurface.dtor (self : GlitzSurface) : M Unit :=
  Surface.dtor self.toSurface

/-- Source: `GlitzSurface::create`, lines 527-532. -/
def GlitzSurface.create (N : Native) (surface : Ptr) : M GlitzSurface := do
  let cobject ← nativePtr N (Call.cairo_glitz_surface_create surface)
  let status ← cairo_surface_status N cobject
  check_status_and_throw_exception status
  GlitzSurface.ctor cobject true

/-! ## Concrete native libraries and worlds used to evaluate the code -/

/-- A native library on which every call succeeds: each status is
`CAIRO_STATUS_SUCCESS`, each created handle is the address `7`, each other pointer
returned is `9`, and the enumerations report the two values `2` and `3`. -/
def Native.healthy : Native :=
  { retInt := fun _ _ => 0,
    retPtr := fun _ c =>
      match c with
      | Call.cairo_font_options_create => 9
      | Call.cairo_image_surface_get_data _ => 9
      | _ => 7,
    retOffset := fun _ _ => ({ bits := 0 }, { bits := 0 }),
    retArray := fun _ _ => (fun i => (i : Int) + 2, 2) }

/-- A native library whose handles all carry the latched status
`CAIRO_STATUS_NO_MEMORY` (`1`), while every other native answer is as in
`Native.healthy`. -/
def Native.broken : Native :=
  { Native.healthy with
    retInt := fun _ c =>
      match c with
      | Call.cairo_surface_status _ => 1
      | _ => 0 }

/-- A native library whose PNG encoder returns `CAIRO_STATUS_WRITE_ERROR` while the
status latched on every handle stays `CAIRO_STATUS_SUCCESS`. -/
def Native.writeFails : Native :=
  { Native.healthy with
    retInt := fun _ c =>
      match c with
      | Call.cairo_surface_write_to_png _ _ => CAIRO_STATUS_WRITE_ERROR
      | Call.cairo_surface_write_to_png_stream _ _ _ => CAIRO_STATUS_WRITE_ERROR
      | _ => 0 }

/-- A world in which the handle `7` has reference count `1` and nothing attached. -/
def World.oneSurface : World :=
  { World.empty with refcount := fun h => if h = 7 then 1 else 0 }

/-- A callable that accepts every buffer. -/
def SlotWriteFunc.accept : SlotWriteFunc := { run := fun _ _ _ => CAIRO_STATUS_SUCCESS }

/-- A callable that answers with the length it is given, so that different calls
can be told apart. -/
def SlotWriteFunc.echoLength : SlotWriteFunc := { run := fun _ _ n => (n : Int) }

/-- A world whose heap holds one slot object, a copy of `SlotWriteFunc.echoLength`
at address `1`. -/
def World.oneSlot : World :=
  { World.empty with
    heap := fun q => if q = 1 then some SlotWriteFunc.echoLength else none,
    nextPtr := 1 }

/-- The world after `write_to_png_stream` has been called once, with the callable
`SlotWriteFunc.accept`, on a wrapper of the handle `7`. -/
def World.afterFirstStream : World :=
  (Surface.write_to_png_stream Native.healthy { m_cobject := 7 } SlotWriteFunc.accept
    World.oneSurface).2

/-- A page size in points. -/
def Double.sample : Double := { bits := 4643211215818981376 }

/-! ## Vocabulary of the statements -/

/-- Number of `cairo_surface_reference` calls in a log. -/
def referenceCalls (t : List Call) : Nat :=
  t.countP (fun c => match c with
    | Call.cairo_surface_reference _ => true
    | _ => false)

/-- The contract of a construction factory `m` that wraps the handle created by the
native call `c`, in the world `w`.  With `h` the handle the native call returns and
`st` the status latched on `h` right after: if `st` is not success the factory
throws an exception carrying `st` (so it returns no wrapper); if `st` is success it
returns a wrapper holding exactly `h`; and it takes no reference in either case
(the counts are as before and no `cairo_surface_reference` is issued). -/
def adoptsCreated {W : Type} (N : Native) (c : Call) (m : M W) (handle : W → Ptr)
    (w : World) : Prop :=
  let h := N.retPtr w.trace c
  let st := N.retInt (w.trace ++ [c]) (Call.cairo_surface_status h)
  (st ≠ CAIRO_STATUS_SUCCESS → (m w).1 = Outcome.raised st) ∧
  (st = CAIRO_STATUS_SUCCESS → ∃ x, (m w).1 = Outcome.ok x ∧ handle x = h) ∧
  (m w).2.refcount = w.refcount ∧
  referenceCalls (m w).2.trace = referenceCalls w.trace

/-- The same contract for a factory that also attaches a slot under `key` to the
handle it created.  The success case is stated for a created handle that has
nothing attached under `key` yet, as is the case for a handle that is new. -/
def adoptsCreatedStream {W : Type} (N : Native) (c : Call) (key : UserDataKey) (m : M W)
    (handle : W → Ptr) (w : World) : Prop :=
  let h := N.retPtr w.trace c
  let st := N.retInt (w.trace ++ [c]) (Call.cairo_surface_status h)
  (st ≠ CAIRO_STATUS_SUCCESS → (m w).1 = Outcome.raised st) ∧
  (st = CAIRO_STATUS_SUCCESS → w.userData h key = 0 →
    ∃ x, (m w).1 = Outcome.ok x ∧ handle x = h) ∧
  (m w).2.refcount = w.refcount ∧
  referenceCalls (m w).2.trace = referenceCalls w.trace

/-- The status latched on the handle `h` after the calls in `t`, as a status query
issued at that point reports it. -/
def latchedStatus (N : Native) (t : List Call) (h : Ptr) : ErrorStatus :=
  N.retInt t (Call.cairo_surface_status h)

/-- The operation `m` on a wrapper of the handle `h` performs the native calls `cs`
and then queries the status latched on `h`, and nothing else; it throws an exception
carrying that latched status when it is not success, and returns when it is. -/
def checksLatched {α : Type} (N : Native) (cs : List Call) (h : Ptr) (m : M α) (w : World) :
    Prop :=
  (m w).2 = { w with trace := w.trace ++ cs ++ [Call.cairo_surface_status h] } ∧
  (latchedStatus N (w.trace ++ cs) h ≠ CAIRO_STATUS_SUCCESS →
    (m w).1 = Outcome.raised (latchedStatus N (w.trace ++ cs) h)) ∧
  (latchedStatus N (w.trace ++ cs) h = CAIRO_STATUS_SUCCESS → ∃ r, (m w).1 = Outcome.ok r)

/-- The operation `m` performs the native call `c`, which returns a status, and
nothing else (no status query on the handle); it throws an exception carrying the
returned status when that is not success, and returns when it is. -/
def checksReturned {α : Type} (N : Native) (c : Call) (m : M α) (w : World) : Prop :=
  (m w).2 = { w with trace := w.trace ++ [c] } ∧
  (N.retInt w.trace c ≠ CAIRO_STATUS_SUCCESS → (m w).1 = Outcome.raised (N.retInt w.trace c)) ∧
  (N.retInt w.trace c = CAIRO_STATUS_SUCCESS → ∃ r, (m w).1 = Outcome.ok r)

/-- A file name. -/
def samplePath : String := "out.png"

/-- A wrapper of the handle `7`. -/
def Surface.seven : Surface := { m_cobject := 7 }

/-- An image wrapper of the handle `7`. -/
def ImageSurface.seven : ImageSurface := { toSurface := Surface.seven }

/-- The native call `create_from_png_stream` issues in the world `w`: the decoder is
given `read_func_wrapper` and, as closure, the address the next `new` returns. -/
def pngStreamCall (w : World) : Call :=
  Call.cairo_image_surface_create_from_png_stream ReadFn.read_func_wrapper (w.nextPtr + 1)

/-! ## Unfolding lemmas for computations -/

theorem M.bind_def {α β : Type} (m : M α) (f : α → M β) : (m >>= f) = M.bind m f := rfl

theorem M.pure_def {α : Type} (a : α) : (Pure.pure a : M α) = M.pure a := rfl

/-- Firing a destroy hook leaves the reference counts and the call log alone. -/
theorem fire_destroy_hook_frame (s : Ptr) (key : UserDataKey) (w : World) :
    (fire_destroy_hook s key w).2.refcount = w.refcount ∧
    (fire_destroy_hook s key w).2.trace = w.trace := by
  unfold fire_destroy_hook free_slot delete_slot
  by_cases h0 : w.userData s key = 0
  · simp [M.bind_def, M.pure_def, M.bind, M.pure, h0]
  · cases hh : w.heap (w.userData s key) <;>
      simp [M.bind_def, M.pure_def, M.bind, M.pure, h0, hh]

/-- A property of the world that holds after `m` and is kept by `f` holds after
`m >>= f`, however the computation ends. -/
theorem M.bind_keeps {α β : Type} (P : World → Prop) (m : M α) (f : α → M β) (w : World)
    (hm : P (m w).2) (hf : ∀ a w1, P w1 → P (f a w1).2) : P ((m >>= f) w).2 := by
  rw [M.bind_def]
  unfold M.bind
  rcases h : m w with ⟨o, w1⟩
  rw [h] at hm
  cases o with
  | ok a => exact hf a w1 hm
  | raised e => exact hm
  | undefined => exact hm

/-- Firing both destroy hooks leaves the reference counts and the call log alone. -/
theorem run_destroy_hooks_frame (s : Ptr) (w : World) :
    (run_destroy_hooks s w).2.refcount = w.refcount ∧
    (run_destroy_hooks s w).2.trace = w.trace := by
  unfold run_destroy_hooks
  apply M.bind_keeps (fun w1 => w1.refcount = w.refcount ∧ w1.trace = w.trace)
  · exact fire_destroy_hook_frame s USER_DATA_KEY_WRITE_FUNC w
  · intro _ w1 h1
    have h2 := fire_destroy_hook_frame s USER_DATA_KEY_READ_FUNC w1
    exact ⟨h2.1.trans h1.1, h2.2.trans h1.2⟩

/-- What `cairo_surface_destroy` does to the reference counts and to the call log
of a non-null handle, whatever its destroy hooks do. -/
theorem cairo_surface_destroy_frame (s : Ptr) (hs : s ≠ 0) (w : World) :
    (cairo_surface_destroy s w).2.refcount
        = (fun h => if h = s then w.refcount s - 1 else w.refcount h) ∧
    (cairo_surface_destroy s w).2.trace = w.trace ++ [Call.cairo_surface_destroy s] := by
  unfold cairo_surface_destroy
  simp only [M.bind_def, M.bind, logCall, drop_reference, hs, if_false]
  by_cases hz : w.refcount s - 1 = 0
  · simp only [hz, if_true]
    have h := run_destroy_hooks_frame s
      { w with trace := w.trace ++ [Call.cairo_surface_destroy s],
               refcount := fun h => if h = s then 0 else w.refcount h }
    exact h
  · simp [hz, M.pure_def, M.pure]

/-! ## C1: adopt and borrow keep the reference count balanced -/

/-- C1. Over the explicit reference counts, for a non-null handle `h` whose count is
`n`: constructing a wrapper with `has_reference = true` returns a wrapper holding
`h` and changes nothing, and destroying that wrapper leaves the count at `n - 1`;
constructing with `has_reference = false` returns a wrapper holding `h` with the
count at `n + 1`, and destroying that wrapper brings it back to `n`.  The
destructor of a wrapper holding `h` issues exactly one `cairo_surface_destroy`, on
`h`, and touches no other count; the destructor of a wrapper holding the null
handle does nothing at all. -/
theorem Surface_ctor_dtor_refcount (w : World) (h : Ptr) (n : Int) (hne : h ≠ 0)
    (hn : w.refcount h = n) :
    Surface.ctor h true w = (Outcome.ok { m_cobject := h }, w) ∧
    (Surface.dtor { m_cobject := h } w).2.refcount h = n - 1 ∧
    (Surface.ctor h false w).1 = Outcome.ok { m_cobject := h } ∧
    (Surface.ctor h false w).2.refcount h = n + 1 ∧
    (Surface.dtor { m_cobject := h } (Surface.ctor h false w).2).2.refcount h = n ∧
    (Surface.dtor { m_cobject := h } w).2.trace = w.trace ++ [Call.cairo_surface_destroy h] ∧
    (∀ g, g ≠ h → (Surface.dtor { m_cobject := h } w).2.refcount g = w.refcount g) ∧
    Surface.dtor { m_cobject := 0 } w = (Outcome.ok (), w) := by
  have hd : ∀ w1 : World, Surface.dtor { m_cobject := h } w1 = cairo_surface_destroy h w1 := by
    intro w1
    simp [Surface.dtor, hne]
  have hb : Surface.ctor h false w = (Outcome.ok { m_cobject := h },
      { w with trace := w.trace ++ [Call.cairo_surface_reference h],
               refcount := fun g => if g = h then w.refcount h + 1 else w.refcount g }) := by
    simp [Surface.ctor, cairo_surface_reference, logCall, M.bind_def, M.bind, M.pure_def,
      M.pure, hne]
  refine ⟨rfl, ?_, ?_, ?_, ?_, ?_, ?_, rfl⟩
  · rw [hd, (cairo_surface_destroy_frame h hne w).1]
    simp [hn]
  · rw [hb]
  · rw [hb]
    simp [hn]
  · rw [hb, hd, (cairo_surface_destroy_frame h hne _).1]
    simp [hn]
  · rw [hd]
    exact (cairo_surface_destroy_frame h hne w).2
  · intro g hg
    rw [hd, (cairo_surface_destroy_frame h hne w).1]
    simp [hg]

/-- Witness for C1: the handle `7` with count `1`. -/
theorem Surface_ctor_dtor_refcount_witness :
    Surface.ctor 7 true World.oneSurface = (Outcome.ok { m_cobject := 7 }, World.oneSurface) ∧
    (Surface.dtor { m_cobject := 7 } World.oneSurface).2.refcount 7 = 1 - 1 ∧
    (Surface.ctor 7 false World.oneSurface).1 = Outcome.ok { m_cobject := 7 } ∧
    (Surface.ctor 7 false World.oneSurface).2.refcount 7 = 1 + 1 ∧
    (Surface.dtor { m_cobject := 7 } (Surface.ctor 7 false World.oneSurface).2).2.refcount 7
      = 1 ∧
    (Surface.dtor { m_cobject := 7 } World.oneSurface).2.trace
      = World.oneSurface.trace ++ [Call.cairo_surface_destroy 7] ∧
    (∀ g, g ≠ 7 → (Surface.dtor { m_cobject := 7 } World.oneSurface).2.refcount g
      = World.oneSurface.refcount g) ∧
    Surface.dtor { m_cobject := 0 } World.oneSurface = (Outcome.ok (), World.oneSurface) :=
  Surface_ctor_dtor_refcount World.oneSurface 7 1 (by decide) (by decide)

/-! ## C2: the callback adapters -/

/-- C2. For every buffer and length, `read_func_wrapper` on a null closure returns
`CAIRO_STATUS_READ_ERROR` and `write_func_wrapper` on a null closure returns
`CAIRO_STATUS_WRITE_ERROR`, both leaving the world (and so the log of invocations)
untouched; on a non-null closure at which the callable `f` is alive, each wrapper
returns exactly the status `f` returns for that buffer and length, and the log of
invocations grows by exactly one entry, for that slot, buffer and length. -/
theorem func_wrapper_null_or_forward (w : World) (data : Ptr) (length : Nat) (closure : Ptr)
    (f : SlotWriteFunc) (hne : closure ≠ 0) (hf : w.heap closure = some f) :
    read_func_wrapper 0 data length w = (Outcome.ok CAIRO_STATUS_READ_ERROR, w) ∧
    write_func_wrapper 0 data length w = (Outcome.ok CAIRO_STATUS_WRITE_ERROR, w) ∧
    read_func_wrapper closure data length w =
      (Outcome.ok (f.run w.invoked data length),
        { w with invoked :=
            w.invoked ++ [{ slot := closure, data := data, length := length }] }) ∧
    write_func_wrapper closure data length w =
      (Outcome.ok (f.run w.invoked data length),
        { w with invoked :=
            w.invoked ++ [{ slot := closure, data := data, length := length }] }) := by
  refine ⟨rfl, rfl, ?_, ?_⟩
  · simp [read_func_wrapper, invoke_slot, hne, hf]
  · simp [write_func_wrapper, invoke_slot, hne, hf]

/-- Witness for C2: the slot object at address `1`, called with the buffer `5` and
the length `3`. -/
theorem func_wrapper_null_or_forward_witness :
    read_func_wrapper 0 5 3 World.oneSlot
      = (Outcome.ok CAIRO_STATUS_READ_ERROR, World.oneSlot) ∧
    write_func_wrapper 0 5 3 World.oneSlot
      = (Outcome.ok CAIRO_STATUS_WRITE_ERROR, World.oneSlot) ∧
    read_func_wrapper 1 5 3 World.oneSlot =
      (Outcome.ok (SlotWriteFunc.echoLength.run World.oneSlot.invoked 5 3),
        { World.oneSlot with invoked :=
            World.oneSlot.invoked ++ [{ slot := 1, data := 5, length := 3 }] }) ∧
    write_func_wrapper 1 5 3 World.oneSlot =
      (Outcome.ok (SlotWriteFunc.echoLength.run World.oneSlot.invoked 5 3),
        { World.oneSlot with invoked :=
            World.oneSlot.invoked ++ [{ slot := 1, data := 5, length := 3 }] }) :=
  func_wrapper_null_or_forward World.oneSlot 5 3 1 SlotWriteFunc.echoLength (by decide) rfl

/-! ## C3: construction factories check the status, then adopt -/

/-- Attaching user data leaves the reference counts alone and logs one call, which is
not a `cairo_surface_reference`. -/
theorem cairo_surface_set_user_data_frame (s : Ptr) (key : UserDataKey) (data : Ptr)
    (w : World) :
    (cairo_surface_set_user_data s key data w).2.refcount = w.refcount ∧
    (cairo_surface_set_user_data s key data w).2.trace
      = w.trace ++ [Call.cairo_surface_set_user_data s key data] := by
  unfold cairo_surface_set_user_data
  apply M.bind_keeps (fun w1 => w1.refcount = w.refcount ∧
    w1.trace = w.trace ++ [Call.cairo_surface_set_user_data s key data])
  · exact ⟨rfl, rfl⟩
  · intro _ w1 h1
    apply M.bind_keeps (fun w2 => w2.refcount = w.refcount ∧
      w2.trace = w.trace ++ [Call.cairo_surface_set_user_data s key data])
    · have h2 := fire_destroy_hook_frame s key w1
      exact ⟨h2.1.trans h1.1, h2.2.trans h1.2⟩
    · intro _ w2 h2
      exact h2

/-- Attaching user data under a key that holds nothing: the call is logged and the
data is installed; nothing is deleted. -/
theorem cairo_surface_set_user_data_fresh (s : Ptr) (key : UserDataKey) (data : Ptr)
    (w : World) (h0 : w.userData s key = 0) :
    cairo_surface_set_user_data s key data w =
      (Outcome.ok (),
        { w with trace := w.trace ++ [Call.cairo_surface_set_user_data s key data],
                 userData := fun h k => if h = s ∧ k = key then data else w.userData h k }) := by
  simp [cairo_surface_set_user_data, fire_destroy_hook, logCall, M.bind_def, M.bind,
    M.pure_def, M.pure, h0]
  funext h k
  by_cases hk : h = s ∧ k = key <;> simp [hk]

/-- The body shared by the factories that wrap a created handle: native creation,
status query, check, construction in adopt mode. -/
theorem adoptsCreated_body {W : Type} (N : Native) (c : Call) (mk : Surface → W)
    (handle : W → Ptr) (hmk : ∀ s, handle (mk s) = s.m_cobject) (w : World)
    (hc : referenceCalls [c] = 0) :
    adoptsCreated N c
      (do
        let cobject ← nativePtr N c
        let status ← cairo_surface_status N cobject
        check_status_and_throw_exception status
        (do
          let base ← Surface.ctor cobject true
          pure (mk base))) handle w := by
  unfold adoptsCreated
  have hr : ∀ x, referenceCalls (w.trace ++ [c, Call.cairo_surface_status x])
      = referenceCalls w.trace := by
    intro x
    unfold referenceCalls at hc ⊢
    rw [List.countP_append, List.countP_cons, List.countP_cons]
    rw [List.countP_cons] at hc
    simp at hc ⊢
    exact hc
  by_cases hst : N.retInt (w.trace ++ [c]) (Call.cairo_surface_status (N.retPtr w.trace c)) = 0
  · simp [Surface.ctor, nativePtr, cairo_surface_status,
      nativeInt, check_status_and_throw_exception, throw_exception, M.bind_def, M.bind,
      M.pure_def, M.pure, CAIRO_STATUS_SUCCESS, hst, hr, hmk]
  · simp [Surface.ctor, nativePtr, cairo_surface_status,
      nativeInt, check_status_and_throw_exception, throw_exception, M.bind_def, M.bind,
      M.pure_def, M.pure, CAIRO_STATUS_SUCCESS, hst, hr, hmk]

/-- The body shared by the factories that copy a callable, create a handle with the
copy as closure, check, attach the copy and construct in adopt mode. -/
theorem adoptsCreatedStream_body {W : Type} (N : Native) (c : Ptr → Call) (key : UserDataKey)
    (f : SlotWriteFunc) (mk : Surface → W)
    (handle : W → Ptr) (hmk : ∀ s, handle (mk s) = s.m_cobject) (w : World)
    (hc : ∀ p, referenceCalls [c p] = 0) :
    adoptsCreatedStream N (c (w.nextPtr + 1)) key
      (do
        let slot_copy ← new_slot f
        let cobject ← nativePtr N (c slot_copy)
        let status ← cairo_surface_status N cobject
        check_status_and_throw_exception status
        cairo_surface_set_user_data cobject key slot_copy
        (do
          let base ← Surface.ctor cobject true
          pure (mk base))) handle w := by
  unfold adoptsCreatedStream
  have hr : ∀ x l, referenceCalls l = 0 →
      referenceCalls (w.trace ++ c (w.nextPtr + 1) :: Call.cairo_surface_status x :: l)
        = referenceCalls w.trace := by
    intro x l hl
    have hcp := hc (w.nextPtr + 1)
    unfold referenceCalls at hcp hl ⊢
    rw [List.countP_append, List.countP_cons, List.countP_cons, hl]
    rw [List.countP_cons] at hcp
    simp at hcp ⊢
    exact hcp
  by_cases hst : N.retInt (w.trace ++ [c (w.nextPtr + 1)])
      (Call.cairo_surface_status (N.retPtr w.trace (c (w.nextPtr + 1)))) = 0
  · simp only [new_slot, nativePtr, cairo_surface_status, nativeInt,
      check_status_and_throw_exception, Surface.ctor, M.bind_def, M.bind, M.pure_def, M.pure,
      CAIRO_STATUS_SUCCESS, hst, if_true, List.append_assoc, List.singleton_append]
    have hf := cairo_surface_set_user_data_frame (N.retPtr w.trace (c (w.nextPtr + 1))) key
      (w.nextPtr + 1)
      { trace := w.trace ++ [c (w.nextPtr + 1),
          Call.cairo_surface_status (N.retPtr w.trace (c (w.nextPtr + 1)))],
        refcount := w.refcount, userData := w.userData,
        heap := fun q => if q = w.nextPtr + 1 then some f else w.heap q,
        nextPtr := w.nextPtr + 1, freed := w.freed, invoked := w.invoked }
    have hn := cairo_surface_set_user_data_fresh (N.retPtr w.trace (c (w.nextPtr + 1))) key
      (w.nextPtr + 1)
      { trace := w.trace ++ [c (w.nextPtr + 1),
          Call.cairo_surface_status (N.retPtr w.trace (c (w.nextPtr + 1)))],
        refcount := w.refcount, userData := w.userData,
        heap := fun q => if q = w.nextPtr + 1 then some f else w.heap q,
        nextPtr := w.nextPtr + 1, freed := w.freed, invoked := w.invoked }
    have hr1 := hr (N.retPtr w.trace (c (w.nextPtr + 1)))
      [Call.cairo_surface_set_user_data (N.retPtr w.trace (c (w.nextPtr + 1))) key
        (w.nextPtr + 1)] rfl
    rcases hres : cairo_surface_set_user_data (N.retPtr w.trace (c (w.nextPtr + 1))) key
      (w.nextPtr + 1)
      { trace := w.trace ++ [c (w.nextPtr + 1),
          Call.cairo_surface_status (N.retPtr w.trace (c (w.nextPtr + 1)))],
        refcount := w.refcount, userData := w.userData,
        heap := fun q => if q = w.nextPtr + 1 then some f else w.heap q,
        nextPtr := w.nextPtr + 1, freed := w.freed, invoked := w.invoked } with ⟨o, w3⟩
    rw [hres] at hf hn
    simp only [List.append_assoc, List.cons_append, List.nil_append] at hf
    cases o with
    | ok a =>
      refine ⟨fun h => absurd rfl h, fun _ _ => ⟨_, rfl, hmk _⟩, hf.1, ?_⟩
      show referenceCalls w3.trace = referenceCalls w.trace
      rw [hf.2]
      exact hr1
    | raised e =>
      refine ⟨fun h => absurd rfl h, fun _ h0 => ?_, hf.1, ?_⟩
      · have := hn h0
        simp at this
      · show referenceCalls w3.trace = referenceCalls w.trace
        rw [hf.2]
        exact hr1
    | undefined =>
      refine ⟨fun h => absurd rfl h, fun _ h0 => ?_, hf.1, ?_⟩
      · have := hn h0
        simp at this
      · show referenceCalls w3.trace = referenceCalls w.trace
        rw [hf.2]
        exact hr1
  · have hr0 := hr (N.retPtr w.trace (c (w.nextPtr + 1))) [] rfl
    simp [new_slot, nativePtr, cairo_surface_status,
      nativeInt, check_status_and_throw_exception, throw_exception, M.bind_def, M.bind,
      M.pure_def, M.pure, CAIRO_STATUS_SUCCESS, hst, hr0]

/-- C3. Every construction factory (`Surface::create`, both `ImageSurface::create`
overloads, the three `create_from_png` variants, the `create` and
`create_for_stream` variants of `PdfSurface`, `PsSurface` and `SvgSurface`, and
`GlitzSurface::create`) queries the status of the handle the native creation call
returned; if that status is not success it throws an exception carrying it and no
wrapper is returned; if it is success the factory returns a wrapper holding exactly
that handle; in both cases no reference is taken (adopt mode).  See `adoptsCreated`
and `adoptsCreatedStream` for the exact statement. -/
theorem factories_check_status_then_adopt (N : Native) (w : World) (other : Surface)
    (content format width height stride : Int) (data glitz rawf closure : Ptr)
    (filename : String) (func : SlotWriteFunc) (wpt hpt : Double) :
    adoptsCreated N (Call.cairo_surface_create_similar other.m_cobject content width height)
      (Surface.create N other content width height) (fun x => x.m_cobject) w ∧
    adoptsCreated N (Call.cairo_image_surface_create format width height)
      (ImageSurface.create N format width height) (fun x => x.m_cobject) w ∧
    adoptsCreated N (Call.cairo_image_surface_create_for_data data format width height stride)
      (ImageSurface.create_for_data N data format width height stride)
      (fun x => x.m_cobject) w ∧
    adoptsCreated N (Call.cairo_image_surface_create_from_png filename)
      (ImageSurface.create_from_png N filename) (fun x => x.m_cobject) w ∧
    adoptsCreatedStream N
      (Call.cairo_image_surface_create_from_png_stream ReadFn.read_func_wrapper (w.nextPtr + 1))
      USER_DATA_KEY_READ_FUNC
      (ImageSurface.create_from_png_stream N func) (fun x => x.m_cobject) w ∧
    adoptsCreated N (Call.cairo_image_surface_create_from_png_stream (ReadFn.raw rawf) closure)
      (ImageSurface.create_from_png_raw N rawf closure) (fun x => x.m_cobject) w ∧
    adoptsCreated N (Call.cairo_pdf_surface_create filename wpt hpt)
      (PdfSurface.create N filename wpt hpt) (fun x => x.m_cobject) w ∧
    adoptsCreated N (Call.cairo_pdf_surface_create_for_stream (WriteFn.raw rawf) closure wpt hpt)
      (PdfSurface.create_raw N rawf closure wpt hpt) (fun x => x.m_cobject) w ∧
    adoptsCreatedStream N
      (Call.cairo_pdf_surface_create_for_stream WriteFn.write_func_wrapper (w.nextPtr + 1)
        wpt hpt)
      USER_DATA_KEY_WRITE_FUNC
      (PdfSurface.create_for_stream N func wpt hpt) (fun x => x.m_cobject) w ∧
    adoptsCreated N (Call.cairo_ps_surface_create filename wpt hpt)
      (PsSurface.create N filename wpt hpt) (fun x => x.m_cobject) w ∧
    adoptsCreated N (Call.cairo_ps_surface_create_for_stream (WriteFn.raw rawf) closure wpt hpt)
      (PsSurface.create_raw N rawf closure wpt hpt) (fun x => x.m_cobject) w ∧
    adoptsCreatedStream N
      (Call.cairo_ps_surface_create_for_stream WriteFn.write_func_wrapper (w.nextPtr + 1)
        wpt hpt)
      USER_DATA_KEY_WRITE_FUNC
      (PsSurface.create_for_stream N func wpt hpt) (fun x => x.m_cobject) w ∧
    adoptsCreated N (Call.cairo_svg_surface_create filename wpt hpt)
      (SvgSurface.create N filename wpt hpt) (fun x => x.m_cobject) w ∧
    adoptsCreated N (Call.cairo_svg_surface_create_for_stream (WriteFn.raw rawf) closure wpt hpt)
      (SvgSurface.create_raw N rawf closure wpt hpt) (fun x => x.m_cobject) w ∧
    adoptsCreatedStream N
      (Call.cairo_svg_surface_create_for_stream WriteFn.write_func_wrapper (w.nextPtr + 1)
        wpt hpt)
      USER_DATA_KEY_WRITE_FUNC
      (SvgSurface.create_for_stream N func wpt hpt) (fun x => x.m_cobject) w ∧
    adoptsCreated N (Call.cairo_glitz_surface_create glitz)
      (GlitzSurface.create N glitz) (fun x => x.m_cobject) w := by
  refine ⟨?_, ?_, ?_, ?_, ?_, ?_, ?_, ?_, ?_, ?_, ?_, ?_, ?_, ?_, ?_, ?_⟩
  · unfold adoptsCreated
    by_cases hst : N.retInt
        (w.trace ++ [Call.cairo_surface_create_similar other.m_cobject content width height])
        (Call.cairo_surface_status (N.retPtr w.trace
          (Call.cairo_surface_create_similar other.m_cobject content width height))) = 0
    · simp [Surface.create, Surface.ctor, nativePtr, cairo_surface_status,
        nativeInt, check_status_and_throw_exception, throw_exception, M.bind_def, M.bind,
        M.pure_def, M.pure, CAIRO_STATUS_SUCCESS, hst, referenceCalls, List.countP_append,
        List.countP_cons]
    · simp [Surface.create, Surface.ctor, nativePtr, cairo_surface_status,
        nativeInt, check_status_and_throw_exception, throw_exception, M.bind_def, M.bind,
        M.pure_def, M.pure, CAIRO_STATUS_SUCCESS, hst, referenceCalls, List.countP_append,
        List.countP_cons]
  · exact adoptsCreated_body N _ ImageSurface.mk _ (fun _ => rfl) w rfl
  · exact adoptsCreated_body N _ ImageSurface.mk _ (fun _ => rfl) w rfl
  · exact adoptsCreated_body N _ ImageSurface.mk _ (fun _ => rfl) w rfl
  · exact adoptsCreatedStream_body N
      (fun p => Call.cairo_image_surface_create_from_png_stream ReadFn.read_func_wrapper p)
      USER_DATA_KEY_READ_FUNC func ImageSurface.mk _ (fun _ => rfl) w (fun _ => rfl)
  · exact adoptsCreated_body N _ ImageSurface.mk _ (fun _ => rfl) w rfl
  · exact adoptsCreated_body N _ PdfSurface.mk _ (fun _ => rfl) w rfl
  · exact adoptsCreated_body N _ PdfSurface.mk _ (fun _ => rfl) w rfl
  · exact adoptsCreatedStream_body N
      (fun p => Call.cairo_pdf_surface_create_for_stream WriteFn.write_func_wrapper p wpt hpt)
      USER_DATA_KEY_WRITE_FUNC func PdfSurface.mk _ (fun _ => rfl) w (fun _ => rfl)
  · exact adoptsCreated_body N _ PsSurface.mk _ (fun _ => rfl) w rfl
  · exact adoptsCreated_body N _ PsSurface.mk _ (fun _ => rfl) w rfl
  · exact adoptsCreatedStream_body N
      (fun p => Call.cairo_ps_surface_create_for_stream WriteFn.write_func_wrapper p wpt hpt)
      USER_DATA_KEY_WRITE_FUNC func PsSurface.mk _ (fun _ => rfl) w (fun _ => rfl)
  · exact adoptsCreated_body N _ SvgSurface.mk _ (fun _ => rfl) w rfl
  · exact adoptsCreated_body N _ SvgSurface.mk _ (fun _ => rfl) w rfl
  · exact adoptsCreatedStream_body N
      (fun p => Call.cairo_svg_surface_create_for_stream WriteFn.write_func_wrapper p wpt hpt)
      USER_DATA_KEY_WRITE_FUNC func SvgSurface.mk _ (fun _ => rfl) w (fun _ => rfl)
  · exact adoptsCreated_body N _ GlitzSurface.mk _ (fun _ => rfl) w rfl

/-! ## C4: attaching a write callable twice -/

/-- The first `write_to_png_stream` on a handle with nothing attached under the
write key: the copy of the callable is made at the next address, attached, and
handed to the native encoder as closure; nothing is deleted. -/
theorem write_to_png_stream_first (N : Native) (w : World) (self : Surface)
    (f1 : SlotWriteFunc) (h0 : w.userData self.m_cobject USER_DATA_KEY_WRITE_FUNC = 0) :
    (Surface.write_to_png_stream N self f1 w).2 =
      { w with
        trace := w.trace ++
          [Call.cairo_surface_get_user_data self.m_cobject USER_DATA_KEY_WRITE_FUNC,
           Call.cairo_surface_set_user_data self.m_cobject USER_DATA_KEY_WRITE_FUNC
             (w.nextPtr + 1),
           Call.cairo_surface_write_to_png_stream self.m_cobject WriteFn.write_func_wrapper
             (w.nextPtr + 1)],
        userData := fun h k =>
          if h = self.m_cobject ∧ k = USER_DATA_KEY_WRITE_FUNC then w.nextPtr + 1
          else w.userData h k,
        heap := fun q => if q = w.nextPtr + 1 then some f1 else w.heap q,
        nextPtr := w.nextPtr + 1 } := by
  have hset := cairo_surface_set_user_data_fresh self.m_cobject USER_DATA_KEY_WRITE_FUNC
    (w.nextPtr + 1)
    { w with
      trace := w.trace ++
        [Call.cairo_surface_get_user_data self.m_cobject USER_DATA_KEY_WRITE_FUNC],
      heap := fun q => if q = w.nextPtr + 1 then some f1 else w.heap q,
      nextPtr := w.nextPtr + 1 } h0
  by_cases hst : N.retInt
      (w.trace ++
        [Call.cairo_surface_get_user_data self.m_cobject USER_DATA_KEY_WRITE_FUNC,
         Call.cairo_surface_set_user_data self.m_cobject USER_DATA_KEY_WRITE_FUNC
           (w.nextPtr + 1)])
      (Call.cairo_surface_write_to_png_stream self.m_cobject WriteFn.write_func_wrapper
        (w.nextPtr + 1)) = 0
  · simp [Surface.write_to_png_stream, get_slot, set_write_slot, cairo_surface_get_user_data,
      new_slot, logCall, nativeInt, check_status_and_throw_exception, throw_exception,
      M.bind_def, M.bind, M.pure_def, M.pure, CAIRO_STATUS_SUCCESS, h0, hset, hst]
  · simp [Surface.write_to_png_stream, get_slot, set_write_slot, cairo_surface_get_user_data,
      new_slot, logCall, nativeInt, check_status_and_throw_exception, throw_exception,
      M.bind_def, M.bind, M.pure_def, M.pure, CAIRO_STATUS_SUCCESS, h0, hset, hst]

/-- A second `write_to_png_stream` on a handle whose write slot holds the live copy
`p1`: the copy is deleted by the explicit `delete old_slot`, and then handed to
`free_slot` once more when `set_write_slot` re-attaches the key, so the call ends in
undefined behaviour with `p1` deleted twice; the new copy is not installed and the
encoder is not reached. -/
theorem write_to_png_stream_again (N : Native) (w : World) (self : Surface)
    (f1 f2 : SlotWriteFunc) (p1 : Ptr) (hp : p1 ≠ 0) (hnew : p1 ≠ w.nextPtr + 1)
    (h1 : w.userData self.m_cobject USER_DATA_KEY_WRITE_FUNC = p1)
    (halive : w.heap p1 = some f1) :
    (Surface.write_to_png_stream N self f2 w).1 = Outcome.undefined ∧
    (Surface.write_to_png_stream N self f2 w).2.freed = w.freed ++ [p1, p1] ∧
    (Surface.write_to_png_stream N self f2 w).2.userData self.m_cobject
      USER_DATA_KEY_WRITE_FUNC = p1 := by
  simp [Surface.write_to_png_stream, get_slot, set_write_slot, cairo_surface_get_user_data,
    cairo_surface_set_user_data, fire_destroy_hook, free_slot, delete_slot,
    new_slot, logCall, nativeInt, check_status_and_throw_exception, throw_exception,
    M.bind_def, M.bind, M.pure_def, M.pure, CAIRO_STATUS_SUCCESS, h1, hp, halive, hnew]

/-- C4, the code at a failing input.  On the handle `7` with nothing attached, the
first `write_to_png_stream` returns and leaves its copy of the callable alive at
address `1` in the write slot, with nothing deleted.  The second
`write_to_png_stream` on the same handle deletes that copy twice (once by
`delete old_slot`, once through the `free_slot` hook fired by the re-attachment)
and ends in undefined behaviour, where the claim asks for exactly one deletion. -/
theorem write_to_png_stream_twice_double_delete :
    (Surface.write_to_png_stream Native.healthy { m_cobject := 7 } SlotWriteFunc.accept
      World.oneSurface).1 = Outcome.ok () ∧
    World.afterFirstStream.userData 7 USER_DATA_KEY_WRITE_FUNC = 1 ∧
    (World.afterFirstStream.heap 1).isSome = true ∧
    World.afterFirstStream.freed = [] ∧
    (Surface.write_to_png_stream Native.healthy { m_cobject := 7 } SlotWriteFunc.echoLength
      World.afterFirstStream).1 = Outcome.undefined ∧
    (Surface.write_to_png_stream Native.healthy { m_cobject := 7 } SlotWriteFunc.echoLength
      World.afterFirstStream).2.freed = [1, 1] ∧
    List.count 1 (Surface.write_to_png_stream Native.healthy { m_cobject := 7 }
      SlotWriteFunc.echoLength World.afterFirstStream).2.freed = 2 :=
  ⟨rfl, rfl, rfl, rfl, rfl, rfl, rfl⟩

/-! ## C5 and C8: the stream factories on a failed creation -/

/-- When the created handle carries a status that is not success, a stream factory
body throws before the copy of the callable is attached: the copy stays alive on
the heap, no user data changes and nothing is deleted. -/
theorem stream_factory_failure_leaves_copy {W : Type} (N : Native) (c : Ptr → Call)
    (key : UserDataKey) (f : SlotWriteFunc) (fin : Ptr → M W) (w : World)
    (hst : N.retInt (w.trace ++ [c (w.nextPtr + 1)])
      (Call.cairo_surface_status (N.retPtr w.trace (c (w.nextPtr + 1))))
        ≠ CAIRO_STATUS_SUCCESS) :
    (do
      let slot_copy ← new_slot f
      let cobject ← nativePtr N (c slot_copy)
      let status ← cairo_surface_status N cobject
      check_status_and_throw_exception status
      cairo_surface_set_user_data cobject key slot_copy
      fin cobject) w =
    (Outcome.raised (N.retInt (w.trace ++ [c (w.nextPtr + 1)])
        (Call.cairo_surface_status (N.retPtr w.trace (c (w.nextPtr + 1))))),
      { w with
        trace := w.trace ++ [c (w.nextPtr + 1),
          Call.cairo_surface_status (N.retPtr w.trace (c (w.nextPtr + 1)))],
        heap := fun q => if q = w.nextPtr + 1 then some f else w.heap q,
        nextPtr := w.nextPtr + 1 }) := by
  simp [new_slot, nativePtr, cairo_surface_status, nativeInt,
    check_status_and_throw_exception, throw_exception, M.bind_def, M.bind, hst]

/-- The three `create_for_stream` factories, for every native library, world,
callable and size: when the created handle carries a status that is not success,
the factory throws it and the world differs from the one before only by the log and
by the copy of the callable, alive at its address; the copy is attached nowhere and
nothing is deleted. -/
theorem create_for_stream_failure_general (N : Native) (w : World) (f : SlotWriteFunc)
    (a b : Double) :
    (latchedStatus N
        (w.trace ++ [Call.cairo_pdf_surface_create_for_stream WriteFn.write_func_wrapper
          (w.nextPtr + 1) a b])
        (N.retPtr w.trace (Call.cairo_pdf_surface_create_for_stream WriteFn.write_func_wrapper
          (w.nextPtr + 1) a b)) ≠ CAIRO_STATUS_SUCCESS →
      (PdfSurface.create_for_stream N f a b w).2.userData = w.userData ∧
      (PdfSurface.create_for_stream N f a b w).2.freed = w.freed ∧
      (PdfSurface.create_for_stream N f a b w).2.heap (w.nextPtr + 1) = some f) ∧
    (latchedStatus N
        (w.trace ++ [Call.cairo_ps_surface_create_for_stream WriteFn.write_func_wrapper
          (w.nextPtr + 1) a b])
        (N.retPtr w.trace (Call.cairo_ps_surface_create_for_stream WriteFn.write_func_wrapper
          (w.nextPtr + 1) a b)) ≠ CAIRO_STATUS_SUCCESS →
      (PsSurface.create_for_stream N f a b w).2.userData = w.userData ∧
      (PsSurface.create_for_stream N f a b w).2.freed = w.freed ∧
      (PsSurface.create_for_stream N f a b w).2.heap (w.nextPtr + 1) = some f) ∧
    (latchedStatus N
        (w.trace ++ [Call.cairo_svg_surface_create_for_stream WriteFn.write_func_wrapper
          (w.nextPtr + 1) a b])
        (N.retPtr w.trace (Call.cairo_svg_surface_create_for_stream WriteFn.write_func_wrapper
          (w.nextPtr + 1) a b)) ≠ CAIRO_STATUS_SUCCESS →
      (SvgSurface.create_for_stream N f a b w).2.userData = w.userData ∧
      (SvgSurface.create_for_stream N f a b w).2.freed = w.freed ∧
      (SvgSurface.create_for_stream N f a b w).2.heap (w.nextPtr + 1) = some f) := by
  refine ⟨fun hst => ?_, fun hst => ?_, fun hst => ?_⟩
  · have h := stream_factory_failure_leaves_copy N
      (fun p => Call.cairo_pdf_surface_create_for_stream WriteFn.write_func_wrapper p a b)
      USER_DATA_KEY_WRITE_FUNC f (fun cobject => PdfSurface.ctor cobject true) w hst
    have h2 : PdfSurface.create_for_stream N f a b w = _ := h
    rw [h2]
    simp
  · have h := stream_factory_failure_leaves_copy N
      (fun p => Call.cairo_ps_surface_create_for_stream WriteFn.write_func_wrapper p a b)
      USER_DATA_KEY_WRITE_FUNC f (fun cobject => PsSurface.ctor cobject true) w hst
    have h2 : PsSurface.create_for_stream N f a b w = _ := h
    rw [h2]
    simp
  · have h := stream_factory_failure_leaves_copy N
      (fun p => Call.cairo_svg_surface_create_for_stream WriteFn.write_func_wrapper p a b)
      USER_DATA_KEY_WRITE_FUNC f (fun cobject => SvgSurface.ctor cobject true) w hst
    have h2 : SvgSurface.create_for_stream N f a b w = _ := h
    rw [h2]
    simp

/-- C5, the code at a failing input.  With a native decoder whose returned handle
`7` carries the status `1`, `create_from_png_stream` throws that status right after
the status query: the log holds the creation and the status query and no
`cairo_surface_set_user_data`; the copy of the read callable is alive at address
`1`, is attached to no handle under any key, and has not been deleted. -/
theorem create_from_png_stream_failure_skips_attach :
    (ImageSurface.create_from_png_stream Native.broken SlotWriteFunc.accept World.empty).1
      = Outcome.raised 1 ∧
    (ImageSurface.create_from_png_stream Native.broken SlotWriteFunc.accept World.empty).2.trace
      = [Call.cairo_image_surface_create_from_png_stream ReadFn.read_func_wrapper 1,
         Call.cairo_surface_status 7] ∧
    ((ImageSurface.create_from_png_stream Native.broken SlotWriteFunc.accept
      World.empty).2.heap 1).isSome = true ∧
    (∀ h k, (ImageSurface.create_from_png_stream Native.broken SlotWriteFunc.accept
      World.empty).2.userData h k = 0) ∧
    (ImageSurface.create_from_png_stream Native.broken SlotWriteFunc.accept World.empty).2.freed
      = [] :=
  ⟨rfl, rfl, rfl, fun _ _ => rfl, rfl⟩

/-- C8, the code at a failing input.  With a native library whose created handle `7`
carries the status `1`, each of `PdfSurface::create_for_stream`,
`PsSurface::create_for_stream` and `SvgSurface::create_for_stream` throws that
status and leaves its copy of the callable alive at address `1`, attached to no
handle under any key and not deleted: the copy is left without an owner. -/
theorem create_for_stream_failure_leaks_copy :
    ((PdfSurface.create_for_stream Native.broken SlotWriteFunc.accept Double.sample
        Double.sample World.empty).1 = Outcome.raised 1 ∧
      ((PdfSurface.create_for_stream Native.broken SlotWriteFunc.accept Double.sample
        Double.sample World.empty).2.heap 1).isSome = true ∧
      (∀ h k, (PdfSurface.create_for_stream Native.broken SlotWriteFunc.accept Double.sample
        Double.sample World.empty).2.userData h k = 0) ∧
      (PdfSurface.create_for_stream Native.broken SlotWriteFunc.accept Double.sample
        Double.sample World.empty).2.freed = []) ∧
    ((PsSurface.create_for_stream Native.broken SlotWriteFunc.accept Double.sample
        Double.sample World.empty).1 = Outcome.raised 1 ∧
      ((PsSurface.create_for_stream Native.broken SlotWriteFunc.accept Double.sample
        Double.sample World.empty).2.heap 1).isSome = true ∧
      (∀ h k, (PsSurface.create_for_stream Native.broken SlotWriteFunc.accept Double.sample
        Double.sample World.empty).2.userData h k = 0) ∧
      (PsSurface.create_for_stream Native.broken SlotWriteFunc.accept Double.sample
        Double.sample World.empty).2.freed = []) ∧
    ((SvgSurface.create_for_stream Native.broken SlotWriteFunc.accept Double.sample
        Double.sample World.empty).1 = Outcome.raised 1 ∧
      ((SvgSurface.create_for_stream Native.broken SlotWriteFunc.accept Double.sample
        Double.sample World.empty).2.heap 1).isSome = true ∧
      (∀ h k, (SvgSurface.create_for_stream Native.broken SlotWriteFunc.accept Double.sample
        Double.sample World.empty).2.userData h k = 0) ∧
      (SvgSurface.create_for_stream Native.broken SlotWriteFunc.accept Double.sample
        Double.sample World.empty).2.freed = []) :=
  ⟨⟨rfl, rfl, fun _ _ => rfl, rfl⟩, ⟨rfl, rfl, fun _ _ => rfl, rfl⟩,
    ⟨rfl, rfl, fun _ _ => rfl, rfl⟩⟩

/-! ## C7: the getters without a status check -/

/-- C7. For every native library, world and wrapper (whatever status is latched on
its handle), `Surface::get_device_offset`, `ImageSurface::get_format` and
`ImageSurface::get_stride` return exactly what the native getter produced; they
never throw, and the only native call they issue is the getter itself, so they make
no status query. -/
theorem unchecked_getters_never_raise (N : Native) (w : World) (s : Surface)
    (i : ImageSurface) :
    Surface.get_device_offset N s w =
      (Outcome.ok (N.retOffset w.trace (Call.cairo_surface_get_device_offset s.m_cobject)),
        { w with trace := w.trace ++ [Call.cairo_surface_get_device_offset s.m_cobject] }) ∧
    ImageSurface.get_format N i w =
      (Outcome.ok (N.retInt w.trace (Call.cairo_image_surface_get_format i.m_cobject)),
        { w with trace := w.trace ++ [Call.cairo_image_surface_get_format i.m_cobject] }) ∧
    ImageSurface.get_stride N i w =
      (Outcome.ok (N.retInt w.trace (Call.cairo_image_surface_get_stride i.m_cobject)),
        { w with trace := w.trace ++ [Call.cairo_image_surface_get_stride i.m_cobject] }) :=
  ⟨rfl, rfl, rfl⟩

/-! ## C10: the temporary font options object -/

/-- C10. For every native library, world and wrapper, `Surface::get_font_options`
issues exactly these calls, in this order: one `cairo_font_options_create`
(returning the temporary `p`), `cairo_surface_get_font_options` on the handle and
`p`, the assignment of the caller-provided value from `p`, one
`cairo_font_options_destroy` of `p`, and the status query.  It throws the latched
status when that is not success and returns otherwise; the log is the same on both
paths, so the temporary is destroyed exactly once also when the check throws, and
the assignment precedes the check. -/
theorem get_font_options_releases_temporary (N : Native) (w : World) (s : Surface) :
    (Surface.get_font_options N s w).2 =
      { w with trace := w.trace ++
          [Call.cairo_font_options_create,
           Call.cairo_surface_get_font_options s.m_cobject
             (N.retPtr w.trace Call.cairo_font_options_create),
           Call.FontOptions_assign (N.retPtr w.trace Call.cairo_font_options_create),
           Call.cairo_font_options_destroy (N.retPtr w.trace Call.cairo_font_options_create),
           Call.cairo_surface_status s.m_cobject] } ∧
    (Surface.get_font_options N s w).1 =
      (if N.retInt (w.trace ++
          [Call.cairo_font_options_create,
           Call.cairo_surface_get_font_options s.m_cobject
             (N.retPtr w.trace Call.cairo_font_options_create),
           Call.FontOptions_assign (N.retPtr w.trace Call.cairo_font_options_create),
           Call.cairo_font_options_destroy (N.retPtr w.trace Call.cairo_font_options_create)])
          (Call.cairo_surface_status s.m_cobject) = CAIRO_STATUS_SUCCESS
       then Outcome.ok ()
       else Outcome.raised (N.retInt (w.trace ++
          [Call.cairo_font_options_create,
           Call.cairo_surface_get_font_options s.m_cobject
             (N.retPtr w.trace Call.cairo_font_options_create),
           Call.FontOptions_assign (N.retPtr w.trace Call.cairo_font_options_create),
           Call.cairo_font_options_destroy (N.retPtr w.trace Call.cairo_font_options_create)])
          (Call.cairo_surface_status s.m_cobject))) := by
  by_cases hst : N.retInt (w.trace ++
          [Call.cairo_font_options_create,
           Call.cairo_surface_get_font_options s.m_cobject
             (N.retPtr w.trace Call.cairo_font_options_create),
           Call.FontOptions_assign (N.retPtr w.trace Call.cairo_font_options_create),
           Call.cairo_font_options_destroy (N.retPtr w.trace Call.cairo_font_options_create)])
          (Call.cairo_surface_status s.m_cobject) = 0
  · simp [Surface.get_font_options, cairo_font_options_create, assign_FontOptions, nativePtr,
      nativeVoid, logCall, check_object_status_and_throw_exception, cairo_surface_status,
      nativeInt, check_status_and_throw_exception, throw_exception, M.bind_def, M.bind,
      M.pure_def, M.pure, CAIRO_STATUS_SUCCESS, hst]
  · simp [Surface.get_font_options, cairo_font_options_create, assign_FontOptions, nativePtr,
      nativeVoid, logCall, check_object_status_and_throw_exception, cairo_surface_status,
      nativeInt, check_status_and_throw_exception, throw_exception, M.bind_def, M.bind,
      M.pure_def, M.pure, CAIRO_STATUS_SUCCESS, hst]

/-! ## C9: copying the native level and version arrays -/

/-- The loop of `get_levels` appends, in order, the converted entries `i`, `i + 1`,
... up to the count; it appends nothing when the count is not above `i`. -/
theorem PsSurface.get_levels_loop_eq (levels : Nat → cairo_ps_level_t) (num_levels : Int) :
    ∀ (k i : Nat) (vec : List PsLevel), k = (num_levels - (i : Int)).toNat →
      PsSurface.get_levels_loop levels num_levels i vec
        = vec ++ (List.range' i k).map (fun j => PsLevel.ofNative (levels j)) := by
  intro k
  induction k with
  | zero =>
    intro i vec hk
    rw [PsSurface.get_levels_loop]
    have : ¬ ((i : Int) < num_levels) := by omega
    simp [this]
  | succ k ih =>
    intro i vec hk
    rw [PsSurface.get_levels_loop]
    have hlt : (i : Int) < num_levels := by omega
    rw [if_pos hlt, ih (i + 1) _ (by push_cast; omega)]
    simp [List.range'_succ]

/-- The loop of `get_versions`, as for `get_levels`. -/
theorem SvgSurface.get_versions_loop_eq (versions : Nat → cairo_svg_version_t)
    (num_versions : Int) :
    ∀ (k i : Nat) (vec : List SvgVersion), k = (num_versions - (i : Int)).toNat →
      SvgSurface.get_versions_loop versions num_versions i vec
        = vec ++ (List.range' i k).map (fun j => SvgVersion.ofNative (versions j)) := by
  intro k
  induction k with
  | zero =>
    intro i vec hk
    rw [SvgSurface.get_versions_loop]
    have : ¬ ((i : Int) < num_versions) := by omega
    simp [this]
  | succ k ih =>
    intro i vec hk
    rw [SvgSurface.get_versions_loop]
    have hlt : (i : Int) < num_versions := by omega
    rw [if_pos hlt, ih (i + 1) _ (by push_cast; omega)]
    simp [List.range'_succ]

/-- C9. For every native library and world, with `levels` the array and `n` the count
that `cairo_ps_get_levels` reports, `PsSurface::get_levels` returns (it takes no
wrapper, issues only that one native call and never throws) a vector of length
`max n 0` whose entry `i` is the conversion of `levels[i]` for every `i` below `n`;
`SvgSurface::get_versions` does the same with `cairo_svg_get_versions`. -/
theorem get_levels_get_versions_copy_in_order (N : Native) (w : World) :
    (∃ vec : List PsLevel,
      PsSurface.get_levels N w =
        (Outcome.ok vec, { w with trace := w.trace ++ [Call.cairo_ps_get_levels] }) ∧
      (vec.length : Int) = max (N.retArray w.trace Call.cairo_ps_get_levels).2 0 ∧
      ∀ i : Nat, (i : Int) < (N.retArray w.trace Call.cairo_ps_get_levels).2 →
        vec[i]? = some (PsLevel.ofNative ((N.retArray w.trace Call.cairo_ps_get_levels).1 i))) ∧
    (∃ vec : List SvgVersion,
      SvgSurface.get_versions N w =
        (Outcome.ok vec, { w with trace := w.trace ++ [Call.cairo_svg_get_versions] }) ∧
      (vec.length : Int) = max (N.retArray w.trace Call.cairo_svg_get_versions).2 0 ∧
      ∀ i : Nat, (i : Int) < (N.retArray w.trace Call.cairo_svg_get_versions).2 →
        vec[i]? = some
          (SvgVersion.ofNative ((N.retArray w.trace Call.cairo_svg_get_versions).1 i))) := by
  constructor
  · refine ⟨PsSurface.get_levels_loop (N.retArray w.trace Call.cairo_ps_get_levels).1
      (N.retArray w.trace Call.cairo_ps_get_levels).2 0 [], rfl, ?_, ?_⟩
    · rw [PsSurface.get_levels_loop_eq _ _ _ 0 [] rfl]
      simp
    · intro i hi
      rw [PsSurface.get_levels_loop_eq _ _ _ 0 [] rfl]
      have hlt : i < (N.retArray w.trace Call.cairo_ps_get_levels).2.toNat := by
        omega
      simp only [List.getElem?_append_right, List.length_nil, Nat.le_refl, List.nil_append,
        List.getElem?_map, Nat.cast_zero, sub_zero]
      rw [List.getElem?_range' 0 1 hlt]
      simp
  · refine ⟨SvgSurface.get_versions_loop (N.retArray w.trace Call.cairo_svg_get_versions).1
      (N.retArray w.trace Call.cairo_svg_get_versions).2 0 [], rfl, ?_, ?_⟩
    · rw [SvgSurface.get_versions_loop_eq _ _ _ 0 [] rfl]
      simp
    · intro i hi
      rw [SvgSurface.get_versions_loop_eq _ _ _ 0 [] rfl]
      have hlt : i < (N.retArray w.trace Call.cairo_svg_get_versions).2.toNat := by
        omega
      simp only [List.getElem?_append_right, List.length_nil, Nat.le_refl, List.nil_append,
        List.getElem?_map, Nat.cast_zero, sub_zero]
      rw [List.getElem?_range' 0 1 hlt]
      simp

/-! ## C6: which operations check the latched status -/

/-- An operation of the shape "native call without result, then the check on the
wrapper" checks the latched status. -/
theorem checksLatched_void (N : Native) (c : Call) (self : Surface) (w : World) :
    checksLatched N [c] self.m_cobject
      (do
        nativeVoid c
        check_object_status_and_throw_exception N self) w := by
  unfold checksLatched latchedStatus
  by_cases hst : N.retInt (w.trace ++ [c]) (Call.cairo_surface_status self.m_cobject) = 0
  · simp [nativeVoid, logCall, check_object_status_and_throw_exception, cairo_surface_status,
      nativeInt, check_status_and_throw_exception, throw_exception, M.bind_def, M.bind,
      M.pure_def, M.pure, CAIRO_STATUS_SUCCESS, hst]
  · simp [nativeVoid, logCall, check_object_status_and_throw_exception, cairo_surface_status,
      nativeInt, check_status_and_throw_exception, throw_exception, M.bind_def, M.bind,
      M.pure_def, M.pure, CAIRO_STATUS_SUCCESS, hst]

/-- An operation of the shape "native call with an integer result, then the check on
the wrapper, then return the result" checks the latched status. -/
theorem checksLatched_int (N : Native) (c : Call) (self : Surface) (w : World) :
    checksLatched N [c] self.m_cobject
      (do
        let result ← nativeInt N c
        check_object_status_and_throw_exception N self
        pure result) w := by
  unfold checksLatched latchedStatus
  by_cases hst : N.retInt (w.trace ++ [c]) (Call.cairo_surface_status self.m_cobject) = 0
  · simp [check_object_status_and_throw_exception, cairo_surface_status,
      nativeInt, check_status_and_throw_exception, throw_exception, M.bind_def, M.bind,
      M.pure_def, M.pure, CAIRO_STATUS_SUCCESS, hst]
  · simp [check_object_status_and_throw_exception, cairo_surface_status,
      nativeInt, check_status_and_throw_exception, throw_exception, M.bind_def, M.bind,
      M.pure_def, M.pure, CAIRO_STATUS_SUCCESS, hst]

/-- An operation of the shape "native call returning a status, then the check on
that status" checks the returned status. -/
theorem checksReturned_status (N : Native) (c : Call) (w : World) :
    checksReturned N c
      (do
        let status ← nativeInt N c
        check_status_and_throw_exception status) w := by
  unfold checksReturned
  by_cases hst : N.retInt w.trace c = 0
  · simp [nativeInt, check_status_and_throw_exception, throw_exception, M.bind_def, M.bind,
      M.pure_def, M.pure, CAIRO_STATUS_SUCCESS, hst]
  · simp [nativeInt, check_status_and_throw_exception, throw_exception, M.bind_def, M.bind,
      M.pure_def, M.pure, CAIRO_STATUS_SUCCESS, hst]

/-- The outcome of `write_to_png_stream` on a handle with nothing attached under the
write key is decided by the status the native encoder returns. -/
theorem write_to_png_stream_first_outcome (N : Native) (w : World) (self : Surface)
    (f1 : SlotWriteFunc) (h0 : w.userData self.m_cobject USER_DATA_KEY_WRITE_FUNC = 0) :
    (Surface.write_to_png_stream N self f1 w).1 =
      (if N.retInt
          (w.trace ++
            [Call.cairo_surface_get_user_data self.m_cobject USER_DATA_KEY_WRITE_FUNC,
             Call.cairo_surface_set_user_data self.m_cobject USER_DATA_KEY_WRITE_FUNC
               (w.nextPtr + 1)])
          (Call.cairo_surface_write_to_png_stream self.m_cobject WriteFn.write_func_wrapper
            (w.nextPtr + 1)) = CAIRO_STATUS_SUCCESS
       then Outcome.ok ()
       else Outcome.raised (N.retInt
          (w.trace ++
            [Call.cairo_surface_get_user_data self.m_cobject USER_DATA_KEY_WRITE_FUNC,
             Call.cairo_surface_set_user_data self.m_cobject USER_DATA_KEY_WRITE_FUNC
               (w.nextPtr + 1)])
          (Call.cairo_surface_write_to_png_stream self.m_cobject WriteFn.write_func_wrapper
            (w.nextPtr + 1)))) := by
  have hset := cairo_surface_set_user_data_fresh self.m_cobject USER_DATA_KEY_WRITE_FUNC
    (w.nextPtr + 1)
    { w with
      trace := w.trace ++
        [Call.cairo_surface_get_user_data self.m_cobject USER_DATA_KEY_WRITE_FUNC],
      heap := fun q => if q = w.nextPtr + 1 then some f1 else w.heap q,
      nextPtr := w.nextPtr + 1 } h0
  by_cases hst : N.retInt
      (w.trace ++
        [Call.cairo_surface_get_user_data self.m_cobject USER_DATA_KEY_WRITE_FUNC,
         Call.cairo_surface_set_user_data self.m_cobject USER_DATA_KEY_WRITE_FUNC
           (w.nextPtr + 1)])
      (Call.cairo_surface_write_to_png_stream self.m_cobject WriteFn.write_func_wrapper
        (w.nextPtr + 1)) = 0
  · simp [Surface.write_to_png_stream, get_slot, set_write_slot, cairo_surface_get_user_data,
      new_slot, logCall, nativeInt, check_status_and_throw_exception, throw_exception,
      M.bind_def, M.bind, M.pure_def, M.pure, CAIRO_STATUS_SUCCESS, h0, hset, hst]
  · simp [Surface.write_to_png_stream, get_slot, set_write_slot, cairo_surface_get_user_data,
      new_slot, logCall, nativeInt, check_status_and_throw_exception, throw_exception,
      M.bind_def, M.bind, M.pure_def, M.pure, CAIRO_STATUS_SUCCESS, h0, hset, hst]

/-- C6, as stated, fails.  On a handle whose latched status is `1` (not success),
both `ImageSurface::get_data` overloads return the native pointer and do not throw.
On a handle whose latched status is success, with a native PNG encoder that returns
`CAIRO_STATUS_WRITE_ERROR`, the three `write_to_png` variants throw that returned
status.  So none of the five operations "throws if and only if the latched status is
not success". -/
theorem not_every_operation_checks_latched :
    (latchedStatus Native.broken
        (World.oneSurface.trace ++ [Call.cairo_image_surface_get_data 7]) 7 = 1 ∧
      (ImageSurface.get_data Native.broken ImageSurface.seven World.oneSurface).1
        = Outcome.ok 9 ∧
      (ImageSurface.get_data_const Native.broken ImageSurface.seven World.oneSurface).1
        = Outcome.ok 9) ∧
    (latchedStatus Native.writeFails
        (World.oneSurface.trace ++ [Call.cairo_surface_write_to_png 7 samplePath]) 7
        = CAIRO_STATUS_SUCCESS ∧
      (Surface.write_to_png Native.writeFails Surface.seven samplePath World.oneSurface).1
        = Outcome.raised CAIRO_STATUS_WRITE_ERROR) ∧
    (latchedStatus Native.writeFails
        (World.oneSurface.trace ++
          [Call.cairo_surface_get_user_data 7 USER_DATA_KEY_WRITE_FUNC,
           Call.cairo_surface_set_user_data 7 USER_DATA_KEY_WRITE_FUNC 1,
           Call.cairo_surface_write_to_png_stream 7 WriteFn.write_func_wrapper 1]) 7
        = CAIRO_STATUS_SUCCESS ∧
      (Surface.write_to_png_stream Native.writeFails Surface.seven SlotWriteFunc.accept
        World.oneSurface).1 = Outcome.raised CAIRO_STATUS_WRITE_ERROR) ∧
    (latchedStatus Native.writeFails
        (World.oneSurface.trace ++
          [Call.cairo_surface_write_to_png_stream 7 (WriteFn.raw 5) 0]) 7
        = CAIRO_STATUS_SUCCESS ∧
      (Surface.write_to_png_raw Native.writeFails Surface.seven 5 0 World.oneSurface).1
        = Outcome.raised CAIRO_STATUS_WRITE_ERROR) ∧
    ¬ checksLatched Native.broken [Call.cairo_image_surface_get_data 7] 7
        (ImageSurface.get_data Native.broken ImageSurface.seven) World.oneSurface ∧
    ¬ checksLatched Native.writeFails [Call.cairo_surface_write_to_png 7 samplePath] 7
        (Surface.write_to_png Native.writeFails Surface.seven samplePath) World.oneSurface := by
  refine ⟨⟨rfl, rfl, rfl⟩, ⟨rfl, rfl⟩, ⟨rfl, rfl⟩, ⟨rfl, rfl⟩, ?_, ?_⟩
  · intro h
    have h1 := h.2.1 (by decide)
    have h2 : (ImageSurface.get_data Native.broken ImageSurface.seven World.oneSurface).1
        = Outcome.ok 9 := rfl
    rw [h2] at h1
    cases h1
  · intro h
    obtain ⟨r, hr⟩ := h.2.2 rfl
    have h2 : (Surface.write_to_png Native.writeFails Surface.seven samplePath
        World.oneSurface).1 = Outcome.raised CAIRO_STATUS_WRITE_ERROR := rfl
    rw [h2] at hr
    cases hr

/-- C6, amended.  For every native library, world and wrapper: `finish`, `flush`,
both `mark_dirty` overloads, `get_font_options`, `set_device_offset`,
`set_fallback_resolution`, `get_type`, `copy_page`, `show_page`, `get_width`,
`get_height`, `PdfSurface::set_size`, `PsSurface::set_size`, `dsc_comment`,
`dsc_begin_setup`, `dsc_begin_page_setup`, `set_eps`, `restrict_to_level` and
`SvgSurface::restrict_to_version` perform their native call(s) and then query the
status latched on the handle, throwing an exception carrying it if and only if it
is not success.  `write_to_png(filename)` and `write_to_png(write_func, closure)`
make no status query: they throw if and only if the status returned by the native
PNG call is not success, carrying that returned status, and so does
`write_to_png_stream` on a handle with nothing attached under the write key.  Both
`get_data` overloads issue only the native getter, return its pointer and never
throw. -/
theorem operations_check_latched_or_returned_status (N : Native) (w : World) (s : Surface)
    (i : ImageSurface) (pdf : PdfSurface) (ps : PsSurface) (svg : SvgSurface)
    (x y width height level version : Int) (a b : Double) (comment filename : String)
    (eps : Bool) (rawf closure : Ptr) (func : SlotWriteFunc) :
    checksLatched N [Call.cairo_surface_finish s.m_cobject] s.m_cobject
      (Surface.finish N s) w ∧
    checksLatched N [Call.cairo_surface_flush s.m_cobject] s.m_cobject
      (Surface.flush N s) w ∧
    checksLatched N [Call.cairo_surface_mark_dirty s.m_cobject] s.m_cobject
      (Surface.mark_dirty N s) w ∧
    checksLatched N [Call.cairo_surface_mark_dirty_rectangle s.m_cobject x y width height]
      s.m_cobject (Surface.mark_dirty_rectangle N s x y width height) w ∧
    checksLatched N
      [Call.cairo_font_options_create,
       Call.cairo_surface_get_font_options s.m_cobject
         (N.retPtr w.trace Call.cairo_font_options_create),
       Call.FontOptions_assign (N.retPtr w.trace Call.cairo_font_options_create),
       Call.cairo_font_options_destroy (N.retPtr w.trace Call.cairo_font_options_create)]
      s.m_cobject (Surface.get_font_options N s) w ∧
    checksLatched N [Call.cairo_surface_set_device_offset s.m_cobject a b] s.m_cobject
      (Surface.set_device_offset N s a b) w ∧
    checksLatched N [Call.cairo_surface_set_fallback_resolution s.m_cobject a b] s.m_cobject
      (Surface.set_fallback_resolution N s a b) w ∧
    checksLatched N [Call.cairo_surface_get_type s.m_cobject] s.m_cobject
      (Surface.get_type N s) w ∧
    checksLatched N [Call.cairo_surface_copy_page s.m_cobject] s.m_cobject
      (Surface.copy_page N s) w ∧
    checksLatched N [Call.cairo_surface_show_page s.m_cobject] s.m_cobject
      (Surface.show_page N s) w ∧
    checksLatched N [Call.cairo_image_surface_get_width i.m_cobject] i.m_cobject
      (ImageSurface.get_width N i) w ∧
    checksLatched N [Call.cairo_image_surface_get_height i.m_cobject] i.m_cobject
      (ImageSurface.get_height N i) w ∧
    checksLatched N [Call.cairo_pdf_surface_set_size pdf.m_cobject a b] pdf.m_cobject
      (PdfSurface.set_size N pdf a b) w ∧
    checksLatched N [Call.cairo_ps_surface_set_size ps.m_cobject a b] ps.m_cobject
      (PsSurface.set_size N ps a b) w ∧
    checksLatched N [Call.cairo_ps_surface_dsc_comment ps.m_cobject comment] ps.m_cobject
      (PsSurface.dsc_comment N ps comment) w ∧
    checksLatched N [Call.cairo_ps_surface_dsc_begin_setup ps.m_cobject] ps.m_cobject
      (PsSurface.dsc_begin_setup N ps) w ∧
    checksLatched N [Call.cairo_ps_surface_dsc_begin_page_setup ps.m_cobject] ps.m_cobject
      (PsSurface.dsc_begin_page_setup N ps) w ∧
    checksLatched N [Call.cairo_ps_surface_set_eps ps.m_cobject eps] ps.m_cobject
      (PsSurface.set_eps N ps eps) w ∧
    checksLatched N
      [Call.cairo_ps_surface_restrict_to_level ps.m_cobject (PsLevel.toNative level)]
      ps.m_cobject (PsSurface.restrict_to_level N ps level) w ∧
    checksLatched N
      [Call.cairo_svg_surface_restrict_to_version svg.m_cobject (SvgVersion.toNative version)]
      svg.m_cobject (SvgSurface.restrict_to_version N svg version) w ∧
    checksReturned N (Call.cairo_surface_write_to_png s.m_cobject filename)
      (Surface.write_to_png N s filename) w ∧
    checksReturned N
      (Call.cairo_surface_write_to_png_stream s.m_cobject (WriteFn.raw rawf) closure)
      (Surface.write_to_png_raw N s rawf closure) w ∧
    (w.userData s.m_cobject USER_DATA_KEY_WRITE_FUNC = 0 →
      (Surface.write_to_png_stream N s func w).2.trace = w.trace ++
        [Call.cairo_surface_get_user_data s.m_cobject USER_DATA_KEY_WRITE_FUNC,
         Call.cairo_surface_set_user_data s.m_cobject USER_DATA_KEY_WRITE_FUNC (w.nextPtr + 1),
         Call.cairo_surface_write_to_png_stream s.m_cobject WriteFn.write_func_wrapper
           (w.nextPtr + 1)] ∧
      (N.retInt
          (w.trace ++
            [Call.cairo_surface_get_user_data s.m_cobject USER_DATA_KEY_WRITE_FUNC,
             Call.cairo_surface_set_user_data s.m_cobject USER_DATA_KEY_WRITE_FUNC
               (w.nextPtr + 1)])
          (Call.cairo_surface_write_to_png_stream s.m_cobject WriteFn.write_func_wrapper
            (w.nextPtr + 1)) ≠ CAIRO_STATUS_SUCCESS →
        (Surface.write_to_png_stream N s func w).1 = Outcome.raised (N.retInt
          (w.trace ++
            [Call.cairo_surface_get_user_data s.m_cobject USER_DATA_KEY_WRITE_FUNC,
             Call.cairo_surface_set_user_data s.m_cobject USER_DATA_KEY_WRITE_FUNC
               (w.nextPtr + 1)])
          (Call.cairo_surface_write_to_png_stream s.m_cobject WriteFn.write_func_wrapper
            (w.nextPtr + 1)))) ∧
      (N.retInt
          (w.trace ++
            [Call.cairo_surface_get_user_data s.m_cobject USER_DATA_KEY_WRITE_FUNC,
             Call.cairo_surface_set_user_data s.m_cobject USER_DATA_KEY_WRITE_FUNC
               (w.nextPtr + 1)])
          (Call.cairo_surface_write_to_png_stream s.m_cobject WriteFn.write_func_wrapper
            (w.nextPtr + 1)) = CAIRO_STATUS_SUCCESS →
        (Surface.write_to_png_stream N s func w).1 = Outcome.ok ())) ∧
    ImageSurface.get_data N i w =
      (Outcome.ok (N.retPtr w.trace (Call.cairo_image_surface_get_data i.m_cobject)),
        { w with trace := w.trace ++ [Call.cairo_image_surface_get_data i.m_cobject] }) ∧
    ImageSurface.get_data_const N i w =
      (Outcome.ok (N.retPtr w.trace (Call.cairo_image_surface_get_data i.m_cobject)),
        { w with trace := w.trace ++ [Call.cairo_image_surface_get_data i.m_cobject] }) := by
  refine ⟨checksLatched_void N _ s w, checksLatched_void N _ s w, checksLatched_void N _ s w,
    checksLatched_void N _ s w, ?_, checksLatched_void N _ s w, checksLatched_void N _ s w,
    checksLatched_int N _ s w, checksLatched_void N _ s w, checksLatched_void N _ s w,
    checksLatched_int N _ i.toSurface w, checksLatched_int N _ i.toSurface w,
    checksLatched_void N _ pdf.toSurface w, checksLatched_void N _ ps.toSurface w,
    checksLatched_void N _ ps.toSurface w, checksLatched_void N _ ps.toSurface w,
    checksLatched_void N _ ps.toSurface w, checksLatched_void N _ ps.toSurface w,
    checksLatched_void N _ ps.toSurface w, checksLatched_void N _ svg.toSurface w,
    checksReturned_status N _ w, checksReturned_status N _ w, ?_, rfl, rfl⟩
  · unfold checksLatched latchedStatus
    by_cases hst : N.retInt (w.trace ++
          [Call.cairo_font_options_create,
           Call.cairo_surface_get_font_options s.m_cobject
             (N.retPtr w.trace Call.cairo_font_options_create),
           Call.FontOptions_assign (N.retPtr w.trace Call.cairo_font_options_create),
           Call.cairo_font_options_destroy (N.retPtr w.trace Call.cairo_font_options_create)])
          (Call.cairo_surface_status s.m_cobject) = 0
    · simp [Surface.get_font_options, cairo_font_options_create, assign_FontOptions, nativePtr,
        nativeVoid, logCall, check_object_status_and_throw_exception, cairo_surface_status,
        nativeInt, check_status_and_throw_exception, throw_exception, M.bind_def, M.bind,
        M.pure_def, M.pure, CAIRO_STATUS_SUCCESS, hst]
    · simp [Surface.get_font_options, cairo_font_options_create, assign_FontOptions, nativePtr,
        nativeVoid, logCall, check_object_status_and_throw_exception, cairo_surface_status,
        nativeInt, check_status_and_throw_exception, throw_exception, M.bind_def, M.bind,
        M.pure_def, M.pure, CAIRO_STATUS_SUCCESS, hst]
  · intro h0
    have hw := write_to_png_stream_first N w s func h0
    have ho := write_to_png_stream_first_outcome N w s func h0
    refine ⟨?_, ?_, ?_⟩
    · rw [hw]
    · intro hst
      rw [ho, if_neg hst]
    · intro hst
      rw [ho, if_pos hst]

/-- C5, amended.  `ImageSurface::create_from_png_stream` copies the read callable to
the heap, hands the copy to the native decoder as closure and queries the status of
the returned handle before anything is attached.  When that status is success (and
the new handle has nothing attached under the read key) it then attaches the copy
to the read slot of that handle and returns a wrapper holding the handle; when it
is not success it throws an exception carrying that status, and no
`cairo_surface_set_user_data` has been issued. -/
theorem create_from_png_stream_checks_then_attaches (N : Native) (w : World)
    (read_func : SlotReadFunc)
    (hfresh : w.userData (N.retPtr w.trace (pngStreamCall w)) USER_DATA_KEY_READ_FUNC = 0) :
    ImageSurface.create_from_png_stream N read_func w =
      (if latchedStatus N (w.trace ++ [pngStreamCall w]) (N.retPtr w.trace (pngStreamCall w))
          = CAIRO_STATUS_SUCCESS
       then
        (Outcome.ok { toSurface := { m_cobject := N.retPtr w.trace (pngStreamCall w) } },
          { w with
            trace := w.trace ++
              [pngStreamCall w,
               Call.cairo_surface_status (N.retPtr w.trace (pngStreamCall w)),
               Call.cairo_surface_set_user_data (N.retPtr w.trace (pngStreamCall w))
                 USER_DATA_KEY_READ_FUNC (w.nextPtr + 1)],
            userData := fun h k =>
              if h = N.retPtr w.trace (pngStreamCall w) ∧ k = USER_DATA_KEY_READ_FUNC
              then w.nextPtr + 1 else w.userData h k,
            heap := fun q => if q = w.nextPtr + 1 then some read_func else w.heap q,
            nextPtr := w.nextPtr + 1 })
       else
        (Outcome.raised
            (latchedStatus N (w.trace ++ [pngStreamCall w]) (N.retPtr w.trace (pngStreamCall w))),
          { w with
            trace := w.trace ++
              [pngStreamCall w,
               Call.cairo_surface_status (N.retPtr w.trace (pngStreamCall w))],
            heap := fun q => if q = w.nextPtr + 1 then some read_func else w.heap q,
            nextPtr := w.nextPtr + 1 })) := by
  have hset := cairo_surface_set_user_data_fresh (N.retPtr w.trace (pngStreamCall w))
    USER_DATA_KEY_READ_FUNC (w.nextPtr + 1)
    { w with
      trace := w.trace ++
        [pngStreamCall w, Call.cairo_surface_status (N.retPtr w.trace (pngStreamCall w))],
      heap := fun q => if q = w.nextPtr + 1 then some read_func else w.heap q,
      nextPtr := w.nextPtr + 1 } hfresh
  unfold latchedStatus
  unfold pngStreamCall at hfresh hset ⊢
  by_cases hst : N.retInt
      (w.trace ++ [Call.cairo_image_surface_create_from_png_stream
        ReadFn.read_func_wrapper (w.nextPtr + 1)])
      (Call.cairo_surface_status (N.retPtr w.trace
        (Call.cairo_image_surface_create_from_png_stream ReadFn.read_func_wrapper
          (w.nextPtr + 1)))) = 0
  · simp [ImageSurface.create_from_png_stream, ImageSurface.ctor, Surface.ctor, set_read_slot,
      new_slot, nativePtr, cairo_surface_status, nativeInt, check_status_and_throw_exception,
      throw_exception, M.bind_def, M.bind, M.pure_def, M.pure, CAIRO_STATUS_SUCCESS, hst, hset]
  · simp [ImageSurface.create_from_png_stream, ImageSurface.ctor, Surface.ctor, set_read_slot,
      new_slot, nativePtr, cairo_surface_status, nativeInt, check_status_and_throw_exception,
      throw_exception, M.bind_def, M.bind, M.pure_def, M.pure, CAIRO_STATUS_SUCCESS, hst]

/-- Witness for C5, amended: a decode that succeeds, in the empty world. -/
theorem create_from_png_stream_checks_then_attaches_witness :
    (ImageSurface.create_from_png_stream Native.healthy SlotWriteFunc.accept World.empty).1
      = Outcome.ok ImageSurface.seven ∧
    (ImageSurface.create_from_png_stream Native.healthy SlotWriteFunc.accept World.empty).2.trace
      = [Call.cairo_image_surface_create_from_png_stream ReadFn.read_func_wrapper 1,
         Call.cairo_surface_status 7,
         Call.cairo_surface_set_user_data 7 USER_DATA_KEY_READ_FUNC 1] ∧
    (ImageSurface.create_from_png_stream Native.healthy SlotWriteFunc.accept
      World.empty).2.userData 7 USER_DATA_KEY_READ_FUNC = 1 := by
  have h := create_from_png_stream_checks_then_attaches Native.healthy World.empty
    SlotWriteFunc.accept rfl
  rw [h]
  exact ⟨rfl, rfl, rfl⟩

/-- Witness for C3: on a native library where every creation succeeds, in the empty
world, the success case of a stream factory is reached and the wrapper holds the
created handle `7`. -/
theorem factories_check_status_then_adopt_witness :
    ∃ x, (PdfSurface.create_for_stream Native.healthy SlotWriteFunc.accept Double.sample
        Double.sample World.empty).1 = Outcome.ok x ∧ x.m_cobject = 7 :=
  (factories_check_status_then_adopt Native.healthy World.empty Surface.seven 0 0 0 0 0 0 0 0 0
    samplePath SlotWriteFunc.accept Double.sample Double.sample).2.2.2.2.2.2.2.2.1.2.1 rfl rfl

/-- Witness for C6, amended: on a handle with nothing attached and a native encoder
that returns `CAIRO_STATUS_WRITE_ERROR`, `write_to_png_stream` throws the returned
status. -/
theorem operations_check_latched_or_returned_status_witness :
    (Surface.write_to_png_stream Native.writeFails Surface.seven SlotWriteFunc.accept
      World.oneSurface).1 = Outcome.raised CAIRO_STATUS_WRITE_ERROR :=
  ((operations_check_latched_or_returned_status Native.writeFails World.oneSurface Surface.seven
    ImageSurface.seven { toSurface := Surface.seven } { toSurface := Surface.seven }
    { toSurface := Surface.seven } 0 0 0 0 0 0 Double.sample Double.sample samplePath samplePath
    true 0 0 SlotWriteFunc.accept).2.2.2.2.2.2.2.2.2.2.2.2.2.2.2.2.2.2.2.2.2.2.1 rfl).2.1
    (by decide)

end Cairo
